import Mathlib

/-!
# Verification of the Zoom RTMS dual-channel connection manager

A shallow embedding of `src/zoom-rtms/index.js`: the HMAC-SHA256 signature
generator, the session registry, the signaling and media WebSocket handlers,
the reconnection timers and the cleanup path, modelled as an explicit
event-driven state machine (one step per socket callback, webhook delivery or
timer firing, mirroring Node's single-threaded event loop).

Machine integers are `Nat` with explicit `% 2^32` where the SHA-256
compression overflows; JavaScript exceptions are modelled with `Except`
internally, and an exception escaping a socket callback sets the `crashed`
flag of the machine (an uncaught exception terminates the Node process).
-/

namespace Rtms

/-! ## Association lists

The JavaScript `Map` (`activeConnections`) and the heaps of live socket /
connection / timer objects are modelled as association lists with
`Map.get` / `Map.set` / `Map.delete` semantics: `setA` replaces the binding
in place when the key is present and appends otherwise, `eraseA` removes
the binding. -/
def lookupA {κ α : Type} [DecidableEq κ] (l : List (κ × α)) (k : κ) : Option α :=
  match l with
  | [] => none
  | (k', v) :: t => if k' = k then some v else lookupA t k

def setA {κ α : Type} [DecidableEq κ] (l : List (κ × α)) (k : κ) (v : α) : List (κ × α) :=
  match l with
  | [] => [(k, v)]
  | (k', v') :: t => if k' = k then (k, v) :: t else (k', v') :: setA t k v

def eraseA {κ α : Type} [DecidableEq κ] (l : List (κ × α)) (k : κ) : List (κ × α) :=
  match l with
  | [] => []
  | (k', v') :: t => if k' = k then t else (k', v') :: eraseA t k

/-! ## HMAC-SHA256 (`generateSignature`)

`crypto.createHmac('sha256', secret).update(msg).digest('hex')`: a full
executable SHA-256 over byte lists (`Nat` bytes, 32-bit words reduced with
`% 2^32`), the standard HMAC construction with a 64-byte block, and
lowercase hex rendering. Strings are encoded to UTF-8 bytes from their
scalar values, as Node's `Buffer` does. -/
def M32 : Nat := 4294967296

def add32 (a b : Nat) : Nat := (a + b) % M32

/-- Right rotation of a 32-bit word. -/
def rotr (w n : Nat) : Nat := (w >>> n) ||| ((w <<< (32 - n)) % M32)

def bnot32 (a : Nat) : Nat := a ^^^ (M32 - 1)

def ssig0 (w : Nat) : Nat := rotr w 7 ^^^ rotr w 18 ^^^ (w >>> 3)

def ssig1 (w : Nat) : Nat := rotr w 17 ^^^ rotr w 19 ^^^ (w >>> 10)

def bsig0 (w : Nat) : Nat := rotr w 2 ^^^ rotr w 13 ^^^ rotr w 22

def bsig1 (w : Nat) : Nat := rotr w 6 ^^^ rotr w 11 ^^^ rotr w 25

def chF (e f g : Nat) : Nat := (e &&& f) ^^^ (bnot32 e &&& g)

def majF (a b c : Nat) : Nat := (a &&& b) ^^^ (a &&& c) ^^^ (b &&& c)

def shaK : List Nat :=
  [1116352408, 1899447441, 3049323471, 3921009573, 961987163, 1508970993, 2453635748, 2870763221,
   3624381080, 310598401, 607225278, 1426881987, 1925078388, 2162078206, 2614888103, 3248222580,
   3835390401, 4022224774, 264347078, 604807628, 770255983, 1249150122, 1555081692, 1996064986,
   2554220882, 2821834349, 2952996808, 3210313671, 3336571891, 3584528711, 113926993, 338241895,
   666307205, 773529912, 1294757372, 1396182291, 1695183700, 1986661051, 2177026350, 2456956037,
   2730485921, 2820302411, 3259730800, 3345764771, 3516065817, 3600352804, 4094571909, 275423344,
   430227734, 506948616, 659060556, 883997877, 958139571, 1322822218, 1537002063, 1747873779,
   1955562222, 2024104815, 2227730452, 2361852424, 2428436474, 2756734187, 3204031479, 3329325298]

/-- The eight 32-bit words of a SHA-256 hash state. -/
structure Hs where
  h0 : Nat
  h1 : Nat
  h2 : Nat
  h3 : Nat
  h4 : Nat
  h5 : Nat
  h6 : Nat
  h7 : Nat
deriving DecidableEq

def shaInit : Hs :=
  ⟨1779033703, 3144134277, 1013904242, 2773480762, 1359893119, 2600822924, 528734635, 1541459225⟩

/-- Extend the 16 block words to 64 schedule words; `acc` holds the words
produced so far, most recent first. -/
def wExtend : Nat → List Nat → List Nat
  | 0, acc => acc
  | fuel + 1, acc =>
    let w2 := acc.getD 1 0
    let w7 := acc.getD 6 0
    let w15 := acc.getD 14 0
    let w16 := acc.getD 15 0
    wExtend fuel (add32 (add32 (ssig1 w2) w7) (add32 (ssig0 w15) w16) :: acc)

def schedule (block : List Nat) : List Nat :=
  (wExtend 48 block.reverse).reverse

def shaRound (s : Hs) (k w : Nat) : Hs :=
  let t1 := add32 s.h7 (add32 (bsig1 s.h4) (add32 (chF s.h4 s.h5 s.h6) (add32 k w)))
  let t2 := add32 (bsig0 s.h0) (majF s.h0 s.h1 s.h2)
  ⟨add32 t1 t2, s.h0, s.h1, s.h2, add32 s.h3 t1, s.h4, s.h5, s.h6⟩

def compressBlock (h : Hs) (block : List Nat) : Hs :=
  let s := (shaK.zip (schedule block)).foldl (fun s kw => shaRound s kw.1 kw.2) h
  ⟨add32 h.h0 s.h0, add32 h.h1 s.h1, add32 h.h2 s.h2, add32 h.h3 s.h3,
   add32 h.h4 s.h4, add32 h.h5 s.h5, add32 h.h6 s.h6, add32 h.h7 s.h7⟩

/-- Big-endian 8-byte encoding of the bit length. -/
def be64 (n : Nat) : List Nat :=
  [n / 2 ^ 56 % 256, n / 2 ^ 48 % 256, n / 2 ^ 40 % 256, n / 2 ^ 32 % 256,
   n / 2 ^ 24 % 256, n / 2 ^ 16 % 256, n / 2 ^ 8 % 256, n % 256]

def shaPad (msg : List Nat) : List Nat :=
  let zeros := (64 - (msg.length + 9) % 64) % 64
  msg ++ [128] ++ List.replicate zeros 0 ++ be64 (msg.length * 8)

/-- Group bytes into big-endian 32-bit words (fuel-driven so that it reduces
in the kernel). -/
def toWords : Nat → List Nat → List Nat
  | 0, _ => []
  | fuel + 1, a :: b :: c :: d :: t => (a * 2 ^ 24 + b * 2 ^ 16 + c * 2 ^ 8 + d) :: toWords fuel t
  | _ + 1, _ => []

/-- Group words into 16-word blocks. -/
def toBlocks : Nat → List Nat → List (List Nat)
  | 0, _ => []
  | _ + 1, [] => []
  | fuel + 1, ws => ws.take 16 :: toBlocks fuel (ws.drop 16)

def wordBytes (w : Nat) : List Nat :=
  [w / 2 ^ 24 % 256, w / 2 ^ 16 % 256, w / 2 ^ 8 % 256, w % 256]

def sha256Bytes (msg : List Nat) : List Nat :=
  let padded := shaPad msg
  let ws := toWords padded.length padded
  let hf := (toBlocks ws.length ws).foldl compressBlock shaInit
  wordBytes hf.h0 ++ wordBytes hf.h1 ++ wordBytes hf.h2 ++ wordBytes hf.h3 ++
  wordBytes hf.h4 ++ wordBytes hf.h5 ++ wordBytes hf.h6 ++ wordBytes hf.h7

def hexChar (n : Nat) : Char :=
  if n < 10 then Char.ofNat (48 + n) else Char.ofNat (87 + n)

def byteHex (b : Nat) : List Char :=
  [hexChar (b / 16 % 16), hexChar (b % 16)]

def bytesToHex (l : List Nat) : String :=
  String.mk (l.flatMap byteHex)

/-- UTF-8 encoding of one Unicode scalar value. -/
def utf8Bytes (c : Nat) : List Nat :=
  if c < 128 then [c]
  else if c < 2048 then [192 + c / 64, 128 + c % 64]
  else if c < 65536 then [224 + c / 4096, 128 + c / 64 % 64, 128 + c % 64]
  else [240 + c / 262144, 128 + c / 4096 % 64, 128 + c / 64 % 64, 128 + c % 64]

def strBytes (s : String) : List Nat :=
  s.data.flatMap (fun c => utf8Bytes c.toNat)

/-- HMAC-SHA256 with the standard 64-byte block. -/
def hmacSha256 (key msg : List Nat) : List Nat :=
  let k0 := if key.length > 64 then sha256Bytes key else key
  let k1 := k0 ++ List.replicate (64 - k0.length) 0
  let ipad := k1.map (fun b => b ^^^ 54)
  let opad := k1.map (fun b => b ^^^ 92)
  sha256Bytes (opad ++ sha256Bytes (ipad ++ msg))

def hmacSha256Hex (key msg : String) : String :=
  bytesToHex (hmacSha256 (strBytes key) (strBytes msg))

/-! ## Configuration and `generateSignature` -/
/-- The fields of `config` that the connection core reads. -/
structure Config where
  clientId : String
  clientSecret : String
deriving DecidableEq

/-- `generateSignature(sessionId, streamId)`: HMAC-SHA256 over
`` `${config.clientId},${sessionId},${streamId}` `` keyed by
`config.clientSecret`, hex digest. -/
def generateSignature (cfg : Config) (sessionId streamId : String) : String :=
  hmacSha256Hex cfg.clientSecret (cfg.clientId ++ "," ++ sessionId ++ "," ++ streamId)

/-! ## Data model

`Conn` is the per-session entity stored in `activeConnections`; the live
JavaScript objects (connections, sockets, timers) are heaps keyed by
allocation number, so that closures which capture an object survive the
object being replaced in the registry, exactly as in the source. -/
/-- The channel-state strings assigned in the source
(`'idle' | 'connecting' | 'authenticated' | 'ready' | 'streaming' | 'closed' | 'error'`). -/
inductive Ch where
  | idle
  | connecting
  | authenticated
  | ready
  | streaming
  | closed
  | error
deriving DecidableEq

/-- One of `conn.signaling` / `conn.media`. -/
structure SubRec where
  socket : Option Nat
  state : Ch
  lastKeepAlive : Option Nat
deriving DecidableEq

/-- The Session Connection entity. -/
structure Conn where
  sessionId : String
  streamId : String
  serverUrls : String
  shouldReconnect : Bool
  signaling : SubRec
  media : SubRec
deriving DecidableEq

/-- The variables each socket's event handlers close over. The signaling
handlers capture `(sessionId, streamId, conn)`; the media handlers capture
`(mediaUrl, sessionId, streamId, signalingSocket, conn)`, where
`signalingSocket` may be `null` when a stale media-reconnect timer fired
after the signaling socket was never re-assigned. -/
inductive SockRole where
  | signaling (sessionId streamId : String) (connId : Nat)
  | media (mediaUrl sessionId streamId : String) (signalingSock : Option Nat) (connId : Nat)
deriving DecidableEq

/-- `WebSocket.readyState` constants of the `ws` library. -/
inductive WsReady where
  | CONNECTING
  | OPEN
  | CLOSING
  | CLOSED
deriving DecidableEq

/-- A live `WebSocket` object. `closeOnOpen` records a
`ws.once('open', () => ws.close())` listener registered by
`cleanupConnection` on a still-connecting socket. -/
structure Socket where
  url : String
  readyState : WsReady
  role : SockRole
  closeOnOpen : Bool
deriving DecidableEq

/-- A pending `setTimeout` callback. The media-reconnect closure captures
`(mediaUrl, sessionId, streamId, conn)` and reads `conn.signaling.socket`
when it fires; the signaling-reconnect closure captures
`(sessionId, streamId, conn)` and reads `conn.serverUrls` and
`conn.shouldReconnect` when it fires. -/
inductive TimerJob where
  | mediaReconnect (mediaUrl sessionId streamId : String) (connId : Nat)
  | signalingReconnect (sessionId streamId : String) (connId : Nat)
deriving DecidableEq

structure Timer where
  delayMs : Nat
  job : TimerJob
deriving DecidableEq

/-- The whole event-loop state. `registry` is `activeConnections`
(sessionId → connection id); `crashed` records that an exception escaped a
socket callback, which kills the Node process. -/
structure State where
  conns : List (Nat × Conn)
  nextConn : Nat
  sockets : List (Nat × Socket)
  nextSock : Nat
  registry : List (String × Nat)
  timers : List (Nat × Timer)
  nextTimer : Nat
  crashed : Bool
deriving DecidableEq

def init : State := ⟨[], 0, [], 0, [], [], 0, false⟩

/-! ## Wire messages -/
/-- `msg.media_server?.server_urls?.audio` with each level optional, as in
the JSON payload. -/
structure SrvUrls where
  audio : Option String
deriving DecidableEq

structure MediaServerInfo where
  server_urls : Option SrvUrls
deriving DecidableEq

structure EventInfo where
  event_type : Option Int
  user_name : Option String
deriving DecidableEq

structure Content where
  user_id : Option Int
  user_name : Option String
  data : Option String
  timestamp : Option Int
deriving DecidableEq

/-- A parsed inbound JSON message; absent fields are `none`
(JavaScript `undefined`). -/
structure InMsg where
  msg_type : Option Int
  status_code : Option Int
  media_server : Option MediaServerInfo
  event : Option EventInfo
  state : Option Int
  reason : Option Int
  timestamp : Option Int
  content : Option Content
deriving DecidableEq

def InMsg.empty : InMsg := ⟨none, none, none, none, none, none, none, none⟩

/-- `msg.media_server?.server_urls?.audio`. -/
def InMsg.mediaUrl (m : InMsg) : Option String :=
  (m.media_server.bind MediaServerInfo.server_urls).bind SrvUrls.audio

/-- Raw inbound socket data: either parseable JSON or not
(`JSON.parse` throws). -/
inductive WireData where
  | malformed
  | json (m : InMsg)
deriving DecidableEq

/-- Outbound messages built by the core (each is `JSON.stringify`-ed and
sent). `dataHandshakeReq` carries the fixed `media_type: 32` bitmask and
the constant `media_params` block of the source; both are the same for
every send, so they are part of the constructor's meaning and the claims
never inspect them. -/
inductive OutMsg where
  | signalingHandshakeReq (sessionId streamId signature : String)
  | eventSubscribe
  | dataHandshakeReq (sessionId streamId signature : String)
  | streamStartReq (streamId : String)
  | keepAliveResp (timestamp : Option Int)
deriving DecidableEq

/-- The `msg_type` code each outbound message carries on the wire. -/
def OutMsg.msgType : OutMsg → Nat
  | .signalingHandshakeReq _ _ _ => 1
  | .eventSubscribe => 5
  | .dataHandshakeReq _ _ _ => 3
  | .streamStartReq _ => 7
  | .keepAliveResp _ => 13

/-! ## Observable actions

One entry per externally visible effect of a callback: socket creation
(`new WebSocket`), `ws.send` on an open socket, a send silently dropped by
the `ws` library because the socket was no longer open, and the console
logs the claims mention. `sigHandshakeOk` is the
`[Signaling] ✅ Handshake OK — media URL: …` log: it is emitted exactly
when a status-0 signaling handshake response is dispatched, carrying the
media endpoint of that response. -/
inductive Action where
  | sockCreated (k : Nat) (url : String) (role : SockRole)
  | sent (k : Nat) (msg : OutMsg)
  | dropped (k : Nat) (msg : OutMsg)
  | sigHandshakeOk (sessionId : String) (mediaUrl : Option String)
  | log (tag : String)
deriving DecidableEq

/-! ## External events -/
/-- One unit of work on the event loop: a webhook delivery (only the RTMS
branches of the `app.post` handler touch the core), a socket callback, or
a timer firing. `now` is `Date.now()` at dispatch time. -/
inductive Event where
  | webhookRtmsStarted (session_id rtms_stream_id : String) (server_urls : Option String)
  | webhookRtmsStopped (session_id : String)
  | sockOpen (k : Nat)
  | sockMessage (k : Nat) (d : WireData) (now : Nat)
  | sockClose (k : Nat)
  | sockError (k : Nat)
  | timerFire (tid : Nat)
deriving DecidableEq

/-! ## Primitive socket operations -/
/-- `String.prototype.startsWith`, over the character sequence (kept
kernel-computable). -/
def strStartsWith (s p : String) : Bool :=
  p.data.isPrefixOf s.data

/-- The `ws` `WebSocket(address, …)` constructor throws a `SyntaxError`
unless the address parses as a URL with a `ws:`/`wss:` protocol; in
particular `new WebSocket(undefined)` throws. -/
def wsUrlOk (u : String) : Bool :=
  strStartsWith u "ws://" || strStartsWith u "wss://"

/-- `ws.close()`: moves a connecting or open socket to `CLOSING`; a no-op on
a socket already closing or closed. -/
def wsClose (st : State) (k : Nat) : State :=
  match lookupA st.sockets k with
  | none => st
  | some s =>
    match s.readyState with
    | .CONNECTING => { st with sockets := setA st.sockets k { s with readyState := .CLOSING } }
    | .OPEN => { st with sockets := setA st.sockets k { s with readyState := .CLOSING } }
    | _ => st

/-- `ws.send(JSON.stringify(msg))` with no callback, with the `ws`
library's semantics: on a socket still `CONNECTING` the library throws
synchronously ("WebSocket is not open: readyState 0 (CONNECTING)") — the
`.error` result, which each call site's surrounding control flow (a `try`
block, or nothing) turns into a caught or an uncaught exception; on an
`OPEN` socket the frame goes out; on a `CLOSING` or `CLOSED` socket
`sendAfterClose` only accounts the bytes and, with no callback supplied,
reports nothing, so the frame is silently dropped. Handles always denote
allocated sockets, so the heap-miss arm is dead code. -/
def wsSend (st : State) (k : Nat) (m : OutMsg) : Except Unit (List Action) :=
  match lookupA st.sockets k with
  | some s =>
    match s.readyState with
    | .CONNECTING => .error ()
    | .OPEN => .ok [.sent k m]
    | .CLOSING => .ok [.dropped k m]
    | .CLOSED => .ok [.dropped k m]
  | none => .ok []

def getConn (st : State) (cid : Nat) : Option Conn :=
  lookupA st.conns cid

def updateConn (st : State) (cid : Nat) (f : Conn → Conn) : State :=
  match lookupA st.conns cid with
  | none => st
  | some c => { st with conns := setA st.conns cid (f c) }

/-! ## `connectToMediaWebSocket` -/
/-- Lines 149–240. Constructs the media socket (throwing — `.error` — on an
unusable URL, before any state is touched), stores it in `conn.media` and
marks the sub-state `connecting`. The open/message/close/error behaviour of
the socket lives in the `step` dispatch below, keyed by the captured
`SockRole.media` context. -/
def connectToMediaWebSocket (mediaUrl : Option String) (sessionId streamId : String)
    (signalingSocket : Option Nat) (connId : Nat) (st : State) :
    Except Unit (State × List Action) :=
  match mediaUrl with
  | none => .error ()
  | some u =>
    if wsUrlOk u then
      let k := st.nextSock
      let role := SockRole.media u sessionId streamId signalingSocket connId
      let st₁ := { st with
        sockets := setA st.sockets k ⟨u, .CONNECTING, role, false⟩,
        nextSock := k + 1 }
      let st₂ := updateConn st₁ connId fun c =>
        { c with media := { c.media with socket := some k, state := .connecting } }
      .ok (st₂, [.log "[Media] Connecting", .sockCreated k u role])
    else .error ()

/-! ## `connectToSignalingWebSocket` -/
/-- Lines 244–390. Validates the URL (`!serverUrls || !serverUrls.startsWith('ws')`
→ log and return, no entity created), constructs the socket (throwing on a
`ws…`-prefixed string that is not a real ws/wss URL), then creates and
registers a fresh entity when `existingConn` was not supplied, or reuses the
supplied one without touching the registry. -/
def connectToSignalingWebSocket (sessionId streamId : String) (serverUrls : Option String)
    (existing : Option Nat) (st : State) : Except Unit (State × List Action) :=
  match serverUrls with
  | none => .ok (st, [.log "[Signaling] Invalid WebSocket URL"])
  | some u =>
    if ¬ strStartsWith u "ws" then .ok (st, [.log "[Signaling] Invalid WebSocket URL"])
    else if ¬ wsUrlOk u then .error ()
    else
      let k := st.nextSock
      match existing with
      | none =>
        let cid := st.nextConn
        let conn : Conn :=
          { sessionId := sessionId, streamId := streamId, serverUrls := u,
            shouldReconnect := true,
            signaling := ⟨some k, .connecting, none⟩,
            media := ⟨none, .idle, none⟩ }
        let role := SockRole.signaling sessionId streamId cid
        .ok ({ st with
                sockets := setA st.sockets k ⟨u, .CONNECTING, role, false⟩,
                nextSock := k + 1,
                conns := setA st.conns cid conn,
                nextConn := cid + 1,
                registry := setA st.registry sessionId cid },
             [.log "[Signaling] Connecting", .sockCreated k u role])
      | some cid =>
        let role := SockRole.signaling sessionId streamId cid
        let st₁ := { st with
          sockets := setA st.sockets k ⟨u, .CONNECTING, role, false⟩,
          nextSock := k + 1 }
        let st₂ := updateConn st₁ cid fun c =>
          { c with signaling := { c.signaling with socket := some k, state := .connecting } }
        .ok (st₂, [.log "[Signaling] Connecting", .sockCreated k u role])

/-! ## `cleanupConnection` -/
/-- Lines 394–414. Looks the session up in the registry (no-op when absent),
flips `shouldReconnect` to `false`, and for each sub-record holding a socket
marks the sub-state `closed` and either defers the close to the `open`
event (socket still `CONNECTING`) or closes immediately; finally deletes
the registry entry. Pending timers are *not* cancelled. -/
def cleanupSub (st : State) (sock : Option Nat) : State :=
  match sock with
  | none => st
  | some k =>
    match lookupA st.sockets k with
    | none => st
    | some s =>
      if s.readyState = .CONNECTING then
        { st with sockets := setA st.sockets k { s with closeOnOpen := true } }
      else wsClose st k

def cleanupConnection (sessionId : String) (st : State) : State × List Action :=
  match lookupA st.registry sessionId with
  | none => (st, [])
  | some cid =>
    match getConn st cid with
    | none => ({ st with registry := eraseA st.registry sessionId }, [.log "[Cleanup]"])
    | some c =>
      let st₁ := updateConn st cid fun c' => { c' with shouldReconnect := false }
      let st₂ :=
        if c.signaling.socket.isSome then
          cleanupSub (updateConn st₁ cid fun c' =>
            { c' with signaling := { c'.signaling with state := .closed } }) c.signaling.socket
        else st₁
      let st₃ :=
        if c.media.socket.isSome then
          cleanupSub (updateConn st₂ cid fun c' =>
            { c' with media := { c'.media with state := .closed } }) c.media.socket
        else st₂
      ({ st₃ with registry := eraseA st₃.registry sessionId }, [.log "[Cleanup]"])

/-! ## `handleMediaMessage` -/
/-- Lines 60–145. The whole body sits in `try { … } catch`, so nothing
escapes — but inside the `try`, `signalingSocket.send` precedes the
`conn.media.state = 'streaming'` assignment: a throw from the send (the
`TypeError` when the captured handle is `null`, or the `ws` throw when the
captured socket is still `CONNECTING`) jumps to the `catch`'s log and the
streaming transition never executes. The success log always precedes the
send. Media payload cases (14–18) only decode and log, guarded by
`msg.content?.data`. -/
def handleMediaMessage (st : State) (d : WireData) (connId : Nat) (mediaWs : Nat)
    (signalingSocket : Option Nat) (streamId : String) : State × List Action :=
  match d with
  | .malformed => (st, [.log "[Media] Failed to parse message"])
  | .json m =>
    match m.msg_type with
    | some 4 =>
      if m.status_code = some 0 then
        match signalingSocket with
        | none => (st, [.log "[Media] Handshake successful",
                        .log "[Media] Failed to parse message"])
        | some ks =>
          match wsSend st ks (.streamStartReq streamId) with
          | .error _ => (st, [.log "[Media] Handshake successful",
                              .log "[Media] Failed to parse message"])
          | .ok acts =>
            (updateConn st connId fun c =>
              { c with media := { c.media with state := .streaming } },
             .log "[Media] Handshake successful" :: acts)
      else (st, [.log "[Media] Handshake failed"])
    | some 12 =>
      match wsSend st mediaWs (.keepAliveResp m.timestamp) with
      | .error _ => (st, [.log "[Media] Failed to parse message"])
      | .ok acts => (st, acts)
    | some 14 =>
      if ((m.content.bind Content.data).isSome) then (st, [.log "[Audio]"]) else (st, [])
    | some 15 =>
      if ((m.content.bind Content.data).isSome) then (st, [.log "[Video]"]) else (st, [])
    | some 16 =>
      if ((m.content.bind Content.data).isSome) then (st, [.log "[ScreenShare]"]) else (st, [])
    | some 17 =>
      if ((m.content.bind Content.data).isSome) then (st, [.log "[Transcript]"]) else (st, [])
    | some 18 =>
      if ((m.content.bind Content.data).isSome) then (st, [.log "[Chat]"]) else (st, [])
    | _ => (st, [])

/-! ## The signaling message handler -/
/-- Lines 292–370. Only `JSON.parse` is guarded by `try`; the `switch` is
not, so an exception from `connectToMediaWebSocket` (case 2, status 0, when
the payload's media URL is absent or unusable) escapes the handler, and so
would a `ws.send` throw (cases 2 and 12 send on the handler's own socket).
Those sends are `signalingWs.send` on the very object the handler is bound
to, whose `readyState` constructing a *different* socket cannot alter, so
their readiness is read from the handler's socket entry before the media
allocation (a `nextSock` collision with a live key has no JS counterpart
and must not masquerade as the signaling socket). -/
def handleSignalingMessage (st : State) (k : Nat) (sessionId streamId : String) (connId : Nat)
    (d : WireData) (now : Nat) : Except Unit (State × List Action) :=
  match d with
  | .malformed => .ok (st, [.log "[Signaling] Invalid JSON received"])
  | .json m =>
    match m.msg_type with
    | some 2 =>
      if m.status_code = some 0 then
        let mediaUrl := m.mediaUrl
        let a₁ : List Action := [.sigHandshakeOk sessionId mediaUrl]
        let st₁ := updateConn st connId fun c =>
          { c with signaling := { c.signaling with state := .ready } }
        match connectToMediaWebSocket mediaUrl sessionId streamId (some k) connId st₁ with
        | .error e => .error e
        | .ok (st₂, a₂) =>
          match wsSend st₁ k .eventSubscribe with
          | .error e => .error e
          | .ok a₃ => .ok (st₂, a₁ ++ a₂ ++ a₃)
      else .ok (st, [.log "[Signaling] Handshake failed"])
    | some 6 =>
      match m.event with
      | none => .ok (st, [])
      | some e =>
        match e.event_type with
        | some 1 => .ok (st, [.log "[Event] First packet"])
        | some 2 => .ok (st, [.log "[Event] Active speaker"])
        | some 3 => .ok (st, [.log "[Event] Participant joined"])
        | some 4 => .ok (st, [.log "[Event] Participant left"])
        | _ => .ok (st, [.log "[Event] Unknown event_type"])
    | some 8 =>
      let a : List Action := [.log "[Signaling] Stream state changed"]
      if m.reason = some 6 ∧ m.state = some 4 then
        let (st', a') := cleanupConnection sessionId st
        .ok (st', a ++ a')
      else .ok (st, a)
    | some 9 => .ok (st, [.log "[Signaling] Session state changed"])
    | some 12 =>
      let st₁ := updateConn st connId fun c =>
        { c with signaling := { c.signaling with lastKeepAlive := some now } }
      match wsSend st₁ k (.keepAliveResp m.timestamp) with
      | .error e => .error e
      | .ok acts => .ok (st₁, acts)
    | _ => .ok (st, [.log "[Signaling] Unhandled msg_type"])

/-! ## Socket open / close / error callbacks -/
/-- The registered `open` listeners, in registration order: the handler
installed at construction (bail out and close when `shouldReconnect` is
already false, otherwise send the handshake and mark the sub-state
`authenticated`), then the `once('open', () => ws.close())` listener a
cleanup may have added. A `ws.send` throw inside the open callback would
be uncaught (`.error`; unreachable here, the socket was just marked
`OPEN`), and it would also keep the later `once` listener from running. -/
def onSockOpen (cfg : Config) (st : State) (k : Nat) : Except Unit (State × List Action) :=
  match lookupA st.sockets k with
  | none => .ok (st, [])
  | some s =>
    if s.readyState ≠ .CONNECTING then .ok (st, []) else
    let st₀ := { st with sockets := setA st.sockets k { s with readyState := .OPEN } }
    let r₁ : Except Unit (State × List Action) :=
      match s.role with
      | .signaling sid stream cid =>
        match getConn st₀ cid with
        | none => .ok (st₀, [])
        | some c =>
          if ¬ c.shouldReconnect then .ok (wsClose st₀ k, [])
          else
            let sig := generateSignature cfg sid stream
            match wsSend st₀ k (.signalingHandshakeReq sid stream sig) with
            | .error e => .error e
            | .ok acts =>
              .ok (updateConn st₀ cid (fun c' =>
                { c' with signaling := { c'.signaling with state := .authenticated } }), acts)
      | .media _ sid stream _ cid =>
        match getConn st₀ cid with
        | none => .ok (st₀, [])
        | some c =>
          if ¬ c.shouldReconnect then .ok (wsClose st₀ k, [])
          else
            let sig := generateSignature cfg sid stream
            match wsSend st₀ k (.dataHandshakeReq sid stream sig) with
            | .error e => .error e
            | .ok acts =>
              .ok (updateConn st₀ cid (fun c' =>
                { c' with media := { c'.media with state := .authenticated } }), acts)
    match r₁ with
    | .error e => .error e
    | .ok (st₁, a₁) => .ok (if s.closeOnOpen then (wsClose st₁ k, a₁) else (st₁, a₁))

/-- `conn.signaling.socket?.readyState === WebSocket.OPEN`. -/
def sigSockOpen (st : State) (c : Conn) : Bool :=
  match c.signaling.socket with
  | some q =>
    match lookupA st.sockets q with
    | some s => s.readyState = .OPEN
    | none => false
  | none => false

/-- The `close` listeners (lines 218–234 for media, 372–384 for signaling).
The media handler checks `shouldReconnect` once, then either schedules a
3-second media-only reconnect (signaling `'ready'` and its socket open) or
restarts signaling passing the entity through; the scheduled media callback
itself never re-checks `shouldReconnect`. The signaling handler schedules a
3-second reconnect whose callback does re-check it. -/
def onSockClose (st : State) (k : Nat) : Except Unit (State × List Action) :=
  match lookupA st.sockets k with
  | none => .ok (st, [])
  | some s =>
    if s.readyState = .CLOSED then .ok (st, []) else
    let st₀ := { st with sockets := setA st.sockets k { s with readyState := .CLOSED } }
    match s.role with
    | .signaling sid stream cid =>
      let st₁ := updateConn st₀ cid fun c =>
        { c with signaling := { c.signaling with state := .closed } }
      match getConn st₁ cid with
      | none => .ok (st₁, [])
      | some c =>
        if c.shouldReconnect then
          .ok ({ st₁ with
                  timers := setA st₁.timers st₁.nextTimer
                    ⟨3000, .signalingReconnect sid stream cid⟩,
                  nextTimer := st₁.nextTimer + 1 },
               [.log "[Signaling] Reconnecting in 3s"])
        else .ok (st₁, [])
    | .media u sid stream _ cid =>
      let st₁ := updateConn st₀ cid fun c =>
        { c with media := { c.media with state := .closed } }
      match getConn st₁ cid with
      | none => .ok (st₁, [])
      | some c =>
        if ¬ c.shouldReconnect then .ok (st₁, [])
        else if c.signaling.state = .ready ∧ sigSockOpen st₁ c then
          .ok ({ st₁ with
                  timers := setA st₁.timers st₁.nextTimer
                    ⟨3000, .mediaReconnect u sid stream cid⟩,
                  nextTimer := st₁.nextTimer + 1 },
               [.log "[Media] Reconnecting in 3s"])
        else
          match connectToSignalingWebSocket sid stream (some c.serverUrls) (some cid) st₁ with
          | .error e => .error e
          | .ok (st₂, a) => .ok (st₂, .log "[Media] Signaling not ready" :: a)

/-- The `error` listeners: log and mark the sub-state `'error'`. -/
def onSockError (st : State) (k : Nat) : State × List Action :=
  match lookupA st.sockets k with
  | none => (st, [])
  | some s =>
    match s.role with
    | .signaling _ _ cid =>
      (updateConn st cid (fun c =>
        { c with signaling := { c.signaling with state := .error } }), [.log "[Signaling] Error"])
    | .media _ _ _ _ cid =>
      (updateConn st cid (fun c =>
        { c with media := { c.media with state := .error } }), [.log "[Media] Error"])

/-- A timer firing: removed from the pending set, then its callback runs.
The signaling-reconnect callback checks `conn.shouldReconnect`; the
media-reconnect callback (line 228) calls `connectToMediaWebSocket`
unconditionally, passing `conn.signaling.socket` as read at fire time. -/
def onTimerFire (st : State) (tid : Nat) : Except Unit (State × List Action) :=
  match lookupA st.timers tid with
  | none => .ok (st, [])
  | some t =>
    let st₀ := { st with timers := eraseA st.timers tid }
    match t.job with
    | .signalingReconnect sid stream cid =>
      match getConn st₀ cid with
      | none => .ok (st₀, [])
      | some c =>
        if c.shouldReconnect then
          connectToSignalingWebSocket sid stream (some c.serverUrls) (some cid) st₀
        else .ok (st₀, [])
    | .mediaReconnect u sid stream cid =>
      match getConn st₀ cid with
      | none => .ok (st₀, [])
      | some c => connectToMediaWebSocket (some u) sid stream c.signaling.socket cid st₀

/-! ## The event-loop step -/
/-- Dispatch one event-loop work item. An exception escaping a socket
callback or a timer callback is an uncaught exception: the process dies
(`crashed := true`; the post-crash state is never consulted again, and the
step keeps the pre-event state). An exception escaping the webhook route
handler is caught by Express and turned into an HTTP 500, not a crash —
reachable only when the socket constructor throws, before any state was
touched. Socket events are only delivered in the ready states the `ws`
library delivers them in. -/
def step (cfg : Config) (st : State) (ev : Event) : State × List Action :=
  if st.crashed then (st, []) else
  match ev with
  | .webhookRtmsStarted sid stream urls =>
    match connectToSignalingWebSocket sid stream urls none st with
    | .ok (st', a) => (st', .log "[Webhook] RTMS started" :: a)
    | .error _ => (st, [.log "[Webhook] RTMS started"])
  | .webhookRtmsStopped sid =>
    let (st', a) := cleanupConnection sid st
    (st', .log "[Webhook] RTMS stopped" :: a)
  | .sockOpen k =>
    match onSockOpen cfg st k with
    | .ok r => r
    | .error _ => ({ st with crashed := true }, [])
  | .sockMessage k d now =>
    match lookupA st.sockets k with
    | none => (st, [])
    | some s =>
      if s.readyState ≠ .OPEN then (st, []) else
      match s.role with
      | .media _ _ stream ks cid => handleMediaMessage st d cid k ks stream
      | .signaling sid stream cid =>
        match handleSignalingMessage st k sid stream cid d now with
        | .ok r => r
        | .error _ => ({ st with crashed := true }, [])
  | .sockClose k =>
    match onSockClose st k with
    | .ok r => r
    | .error _ => ({ st with crashed := true }, [])
  | .sockError k => onSockError st k
  | .timerFire tid =>
    match onTimerFire st tid with
    | .ok r => r
    | .error _ => ({ st with crashed := true }, [])

/-- Run a list of events from a state, collecting the emitted actions in
order. -/
def run (cfg : Config) (st : State) (evs : List Event) : State × List Action :=
  match evs with
  | [] => (st, [])
  | e :: rest =>
    let (st₁, a₁) := step cfg st e
    let (st₂, a₂) := run cfg st₁ rest
    (st₂, a₁ ++ a₂)

/-! ## Derived notions used by the claims -/
/-- A lowercase hexadecimal digit. -/
def isHexDigitCh (c : Char) : Bool :=
  (('0' ≤ c) && (c ≤ '9')) || (('a' ≤ c) && (c ≤ 'f'))

/-- The socket has been asked to shut down: it is closing or closed, or a
close has been registered to run as soon as its connect completes. -/
def closeRequested (st : State) (k : Nat) : Prop :=
  match lookupA st.sockets k with
  | some s => s.readyState = .CLOSING ∨ s.readyState = .CLOSED ∨ s.closeOnOpen = true
  | none => False

/-- The session and media endpoint of a media-socket creation, if the
action is one. -/
def mediaCreates : Action → Option (String × String)
  | .sockCreated _ _ (.media u sid _ _ _) => some (sid, u)
  | _ => none

/-- The status-0 signaling handshake response named `msg.media_server?.server_urls?.audio`
usable by the `WebSocket` constructor. -/
def mediaUrlUsable (m : InMsg) : Bool :=
  match m.mediaUrl with
  | some u => wsUrlOk u
  | none => false

/-! ## Concrete fixtures used by witnesses and counterexamples -/
def cfgW : Config := ⟨"cid", "secret"⟩

/-- `{msg_type: 2, status_code: 0, media_server: {server_urls: {audio: "ws://media"}}}`. -/
def msgHandshakeOk : InMsg :=
  { InMsg.empty with
    msg_type := some 2, status_code := some 0,
    media_server := some ⟨some ⟨some "ws://media"⟩⟩ }

/-- A well-formed JSON handshake response whose payload lacks the
media-endpoint fields: `{msg_type: 2, status_code: 0}`. -/
def msgHandshakeNoUrl : InMsg :=
  { InMsg.empty with
    msg_type := some 2, status_code := some 0 }

/-- `{msg_type: 8, state: 4, reason: 6}` — the terminal stream-state pair. -/
def msgTerminal : InMsg :=
  { InMsg.empty with
    msg_type := some 8, state := some 4, reason := some 6 }

/-- `{msg_type: 12, timestamp: 777}`. -/
def msgKeepAlive : InMsg :=
  { InMsg.empty with
    msg_type := some 12, timestamp := some 777 }

/-- `{msg_type: 4, status_code: 0}` — media handshake success. -/
def msgMediaHsOk : InMsg :=
  { InMsg.empty with
    msg_type := some 4, status_code := some 0 }

/-- One session started: entity 0 registered, signaling socket 0 connecting. -/
def stA : State :=
  (run cfgW init [.webhookRtmsStarted "s" "t" (some "ws://sig")]).1

/-- Started, signaling open and handshaken, media socket 1 open: both
channels live (`signaling` ready on socket 0, `media` authenticated on
socket 1). -/
def stB : State :=
  (run cfgW init [.webhookRtmsStarted "s" "t" (some "ws://sig"), .sockOpen 0,
    .sockMessage 0 (.json msgHandshakeOk) 5, .sockOpen 1]).1

/-! ## Claim C6 -/
/-- The condition the media close handler's branch effectively tests,
expressed over the pre-close state: the entity's signaling socket, as read
after the closing media socket `k` has been marked `CLOSED`, is open. (If
the signaling handle happens to be `k` itself it has just been closed, so
the test is false.) -/
def sigOpenAfterMediaClose (st : State) (c : Conn) (k : Nat) : Bool :=
  match c.signaling.socket with
  | some q =>
    if q = k then false
    else
      match lookupA st.sockets q with
      | some sq => sq.readyState = .OPEN
      | none => false
  | none => false

/-! ## Claim C7: trace machinery

`run` emits its actions oldest-first. For the ordering proof we reason on
the *reversed* trace (newest first): `RevOk` says every media-socket
creation is preceded (further down the reversed list) by the
`sigHandshakeOk` log of a status-0 signaling handshake response carrying
that exact endpoint for that session. -/
inductive RevOk : List Action → Prop where
  | nil : RevOk []
  | cons (x : Action) (tr : List Action)
      (hx : ∀ sid u, mediaCreates x = some (sid, u) → Action.sigHandshakeOk sid (some u) ∈ tr)
      (htr : RevOk tr) : RevOk (x :: tr)

/-- The obligations a step's action list (oldest-first) must meet on top of
an already-good reversed trace `below`. -/
def ActsOk : List Action → List Action → Prop
  | _, [] => True
  | below, x :: rest =>
    (∀ sid u, mediaCreates x = some (sid, u) → Action.sigHandshakeOk sid (some u) ∈ below)
    ∧ ActsOk (x :: below) rest

/-- Every media-role socket in the heap has its endpoint vouched for by a
handshake log already in the reversed trace. -/
def SockOkL (l : List (Nat × Socket)) (rtr : List Action) : Prop :=
  ∀ p ∈ l, ∀ u sid stream ks cid,
    (Prod.snd (α := Nat) p).role = .media u sid stream ks cid →
    Action.sigHandshakeOk sid (some u) ∈ rtr

/-- Every pending media-reconnect timer likewise. -/
def TimerOkL (l : List (Nat × Timer)) (rtr : List Action) : Prop :=
  ∀ p ∈ l, ∀ u sid stream cid,
    (Prod.snd (α := Nat) p).job = .mediaReconnect u sid stream cid →
    Action.sigHandshakeOk sid (some u) ∈ rtr

/-- The run invariant: heap obligations plus goodness of the reversed
trace. -/
def Inv (st : State) (rtr : List Action) : Prop :=
  SockOkL st.sockets rtr ∧ TimerOkL st.timers rtr ∧ RevOk rtr

/-! ## Claim C7: handshake success precedes every media connection attempt -/
def evsW : List Event :=
  [.webhookRtmsStarted "s" "t" (some "ws://sig"), .sockOpen 0,
   .sockMessage 0 (.json msgHandshakeOk) 5]

/-- The reconnect race reaching a media message while the captured
signaling socket is still `CONNECTING`: start and handshake as in `stB`,
then the media socket closes (3 s media-only reconnect timer 0, signaling
was ready and open), the signaling socket closes (reconnect timer 1), the
signaling timer fires (fresh `CONNECTING` signaling socket 2), the stale
media timer fires (media socket 3 capturing handle 2), and the new media
socket opens. -/
def evsX : List Event :=
  [.webhookRtmsStarted "s" "t" (some "ws://sig"), .sockOpen 0,
   .sockMessage 0 (.json msgHandshakeOk) 5, .sockOpen 1,
   .sockClose 1, .sockClose 0, .timerFire 1, .timerFire 0, .sockOpen 3]

def stX : State := (run cfgW init evsX).1

theorem mem_setA {κ α : Type} [DecidableEq κ] {l : List (κ × α)} {k : κ} {v : α}
    {x : κ × α} (hx : x ∈ setA l k v) : x ∈ l ∨ x = (k, v) := by
  induction l with
  | nil =>
    simp only [setA, List.mem_singleton] at hx
    exact Or.inr hx
  | cons h t ih =>
    obtain ⟨k', v'⟩ := h
    simp only [setA] at hx
    by_cases he : k' = k
    · rw [if_pos he] at hx
      rcases List.mem_cons.mp hx with hx | hx
      · exact Or.inr hx
      · exact Or.inl (List.mem_cons_of_mem _ hx)
    · rw [if_neg he] at hx
      rcases List.mem_cons.mp hx with hx | hx
      · exact Or.inl (hx ▸ List.mem_cons_self _ _)
      · rcases ih hx with h' | h'
        · exact Or.inl (List.mem_cons_of_mem _ h')
        · exact Or.inr h'

theorem mem_eraseA {κ α : Type} [DecidableEq κ] {l : List (κ × α)} {k : κ}
    {x : κ × α} (hx : x ∈ eraseA l k) : x ∈ l := by
  induction l with
  | nil => simp [eraseA] at hx
  | cons h t ih =>
    obtain ⟨k', v'⟩ := h
    simp only [eraseA] at hx
    by_cases he : k' = k
    · rw [if_pos he] at hx
      exact List.mem_cons_of_mem _ hx
    · rw [if_neg he] at hx
      rcases List.mem_cons.mp hx with hx | hx
      · exact hx ▸ List.mem_cons_self _ _
      · exact List.mem_cons_of_mem _ (ih hx)

theorem lookupA_setA_self {κ α : Type} [DecidableEq κ] (l : List (κ × α)) (k : κ) (v : α) :
    lookupA (setA l k v) k = some v := by
  induction l with
  | nil => simp [setA, lookupA]
  | cons h t ih =>
    obtain ⟨k', v'⟩ := h
    simp only [setA]
    by_cases he : k' = k
    · rw [if_pos he]
      simp [lookupA]
    · rw [if_neg he]
      simp only [lookupA]
      rw [if_neg he]
      exact ih

theorem lookupA_setA_ne {κ α : Type} [DecidableEq κ] (l : List (κ × α)) (k k' : κ) (v : α)
    (hne : k ≠ k') : lookupA (setA l k v) k' = lookupA l k' := by
  induction l with
  | nil => simp [setA, lookupA, hne]
  | cons h t ih =>
    obtain ⟨k₀, v₀⟩ := h
    simp only [setA]
    by_cases he : k₀ = k
    · rw [if_pos he]
      simp only [lookupA]
      rw [if_neg hne, if_neg (he ▸ hne)]
    · rw [if_neg he]
      simp only [lookupA]
      by_cases he' : k₀ = k'
      · rw [if_pos he', if_pos he']
      · rw [if_neg he', if_neg he']
        exact ih

/-! ## Small facts about the heap helpers -/
theorem lookupA_mem {κ α : Type} [DecidableEq κ] {l : List (κ × α)} {k : κ} {v : α}
    (h : lookupA l k = some v) : (k, v) ∈ l := by
  induction l with
  | nil => simp [lookupA] at h
  | cons p t ih =>
    obtain ⟨k', v'⟩ := p
    simp only [lookupA] at h
    by_cases he : k' = k
    · rw [if_pos he] at h
      cases h
      exact he ▸ List.mem_cons_self _ _
    · rw [if_neg he] at h
      exact List.mem_cons_of_mem _ (ih h)

theorem keys_nodup_setA {κ α : Type} [DecidableEq κ] {l : List (κ × α)} (k : κ) (v : α)
    (h : (l.map Prod.fst).Nodup) : ((setA l k v).map Prod.fst).Nodup := by
  induction l with
  | nil => simp [setA]
  | cons p t ih =>
    obtain ⟨k', v'⟩ := p
    simp only [List.map_cons, List.nodup_cons] at h
    obtain ⟨hk', ht⟩ := h
    simp only [setA]
    by_cases he : k' = k
    · rw [if_pos he]
      simp only [List.map_cons, List.nodup_cons]
      exact ⟨he ▸ hk', ht⟩
    · rw [if_neg he]
      simp only [List.map_cons, List.nodup_cons]
      refine ⟨?_, ih ht⟩
      intro hmem
      rcases List.mem_map.mp hmem with ⟨x, hx, hfst⟩
      rcases mem_setA hx with hx' | hx'
      · exact hk' (hfst ▸ List.mem_map_of_mem Prod.fst hx')
      · exact he (by rw [hx'] at hfst; exact hfst.symm)

theorem keys_nodup_eraseA {κ α : Type} [DecidableEq κ] {l : List (κ × α)} (k : κ)
    (h : (l.map Prod.fst).Nodup) : ((eraseA l k).map Prod.fst).Nodup := by
  induction l with
  | nil => simp [eraseA]
  | cons p t ih =>
    obtain ⟨k', v'⟩ := p
    simp only [List.map_cons, List.nodup_cons] at h
    obtain ⟨hk', ht⟩ := h
    simp only [eraseA]
    by_cases he : k' = k
    · rw [if_pos he]
      exact ht
    · rw [if_neg he]
      simp only [List.map_cons, List.nodup_cons]
      refine ⟨?_, ih ht⟩
      intro hmem
      rcases List.mem_map.mp hmem with ⟨x, hx, hfst⟩
      exact hk' (hfst ▸ List.mem_map_of_mem Prod.fst (mem_eraseA hx))

theorem strStartsWith_ws_of_wsUrlOk {u : String} (h : wsUrlOk u = true) :
    strStartsWith u "ws" = true := by
  simp only [wsUrlOk, Bool.or_eq_true] at h
  simp only [strStartsWith, List.isPrefixOf_iff_prefix] at h ⊢
  rcases h with h | h
  · exact List.IsPrefix.trans (by decide) h
  · exact List.IsPrefix.trans (by decide) h

/-! ## Facts about the hex rendering -/
theorem isHex_hexChar_mod (n : Nat) : isHexDigitCh (hexChar (n % 16)) = true :=
  (by decide : ∀ m, m < 16 → isHexDigitCh (hexChar m) = true) _ (Nat.mod_lt _ (by decide))

theorem isHex_bytesToHex (l : List Nat) :
    ∀ c ∈ (bytesToHex l).data, isHexDigitCh c = true := by
  intro c hc
  have hc' : c ∈ l.flatMap byteHex := hc
  rcases List.mem_flatMap.mp hc' with ⟨b, _, hcb⟩
  simp only [byteHex, List.mem_cons, List.mem_singleton, List.not_mem_nil, or_false] at hcb
  rcases hcb with hcb | hcb
  · exact hcb ▸ isHex_hexChar_mod (b / 16)
  · exact hcb ▸ isHex_hexChar_mod b

/-! ## Claim C4 -/
/-- C4 (corrected). `generateSignature` is a pure function of the
configuration and the two identifiers (determinism is definitional in the
embedding), it is exactly the hex-encoded HMAC-SHA256 of
`clientId + "," + sessionId + "," + streamId` keyed by the client secret,
its output is a fixed-length (64-character) lowercase-hexadecimal string,
and it depends only on the concatenated comma-joined message. The claim's
further assertion — that any two input pairs differing in either component
produce different signatures — is refuted by `claim4_counterexample`:
components containing commas can make distinct pairs concatenate to the
same message. -/
theorem claim4_signature (cfg : Config) (s₁ t₁ s₂ t₂ : String) :
    generateSignature cfg s₁ t₁ =
        hmacSha256Hex cfg.clientSecret (cfg.clientId ++ "," ++ s₁ ++ "," ++ t₁)
      ∧ (generateSignature cfg s₁ t₁).length = 64
      ∧ (∀ c ∈ (generateSignature cfg s₁ t₁).data, isHexDigitCh c = true)
      ∧ (cfg.clientId ++ "," ++ s₁ ++ "," ++ t₁ = cfg.clientId ++ "," ++ s₂ ++ "," ++ t₂ →
          generateSignature cfg s₁ t₁ = generateSignature cfg s₂ t₂) := by
  refine ⟨rfl, rfl, ?_, ?_⟩
  · exact fun c hc => isHex_bytesToHex _ c hc
  · intro h
    simp only [generateSignature, hmacSha256Hex]
    rw [h]

/-- C4 witness: the inner hypothesis discharged at a concrete input —
`("u,v", "w")` and `("u", "v,w")` concatenate to the same message, so the
theorem yields equal signatures. -/
theorem claim4_signature_witness :
    generateSignature ⟨"cid", "secret"⟩ "u,v" "w" =
      generateSignature ⟨"cid", "secret"⟩ "u" "v,w" :=
  (claim4_signature ⟨"cid", "secret"⟩ "u,v" "w" "u" "v,w").2.2.2 (by decide)

/-- C4 counterexample: the pairs `("a,b", "c")` and `("a", "b,c")` differ in
both components yet produce identical signatures, because both concatenate
to `cid,a,b,c`; so "for any two input pairs that differ in either component
the produced signatures differ" is false. -/
theorem claim4_counterexample :
    generateSignature ⟨"cid", "secret"⟩ "a,b" "c" =
        generateSignature ⟨"cid", "secret"⟩ "a" "b,c"
      ∧ ¬("a,b" = "a" ∧ "c" = "b,c") := by
  constructor
  · show hmacSha256Hex _ _ = hmacSha256Hex _ _
    have h : ("cid" ++ "," ++ "a,b" ++ "," ++ "c" : String) =
        "cid" ++ "," ++ "a" ++ "," ++ "b,c" := by decide
    rw [h]
  · decide

/-! ## Claim C1 -/
/-- C1 (corrected). The registry always keeps at most one entry per
sessionId (`Map.set` replaces), and the entry point keeps pointing that key
at a single connection — but re-invoking the signaling connect entry point
with no existing entity for an already-registered sessionId does *not*
reuse the registered entity: it allocates a fresh one (`st.nextConn`) and
overwrites the registry entry with it, leaving the old entity orphaned but
untouched in the heap (`claim1_counterexample` shows the replacement). -/
theorem claim1_registry (cfg : Config) (st : State) (sid stream u : String) (cid0 : Nat)
    (hnd : (st.registry.map Prod.fst).Nodup)
    (hreg : lookupA st.registry sid = some cid0)
    (hrb : ∀ p ∈ st.registry, p.2 < st.nextConn)
    (hcr : st.crashed = false)
    (hu : wsUrlOk u = true) :
    ∀ st', st' = (step cfg st (.webhookRtmsStarted sid stream (some u))).1 →
      ((st'.registry.map Prod.fst).Nodup
        ∧ lookupA st'.registry sid = some st.nextConn
        ∧ cid0 ≠ st.nextConn
        ∧ getConn st' cid0 = getConn st cid0
        ∧ st'.nextConn = st.nextConn + 1) := by
  intro st' hst'
  have hws := strStartsWith_ws_of_wsUrlOk hu
  have hlt : cid0 < st.nextConn := hrb _ (lookupA_mem hreg)
  have hne : cid0 ≠ st.nextConn := Nat.ne_of_lt hlt
  subst hst'
  simp only [step, hcr, Bool.false_eq_true, if_false, connectToSignalingWebSocket, hws,
    Bool.true_eq_false, not_false_eq_true, hu, if_true, ite_false, ite_true]
  refine ⟨keys_nodup_setA _ _ hnd, lookupA_setA_self _ _ _, hne, ?_, rfl⟩
  simp only [getConn]
  exact lookupA_setA_ne _ _ _ _ (Ne.symm hne)

/-- C1 witness: the amended theorem applied to the concrete state with
session `"s"` registered as entity 0. -/
theorem claim1_registry_witness :
    ((((step cfgW stA (.webhookRtmsStarted "s" "t" (some "ws://sig"))).1).registry.map
        Prod.fst).Nodup
      ∧ lookupA ((step cfgW stA (.webhookRtmsStarted "s" "t" (some "ws://sig"))).1).registry "s" =
          some stA.nextConn
      ∧ 0 ≠ stA.nextConn
      ∧ getConn ((step cfgW stA (.webhookRtmsStarted "s" "t" (some "ws://sig"))).1) 0 =
          getConn stA 0
      ∧ ((step cfgW stA (.webhookRtmsStarted "s" "t" (some "ws://sig"))).1).nextConn =
          stA.nextConn + 1) :=
  claim1_registry cfgW stA "s" "t" "ws://sig" 0 (by decide) (by decide) (by decide)
    (by decide) (by decide) _ rfl

/-- C1 counterexample: starting `"s"` twice. After the second start the
registry still has a single entry for `"s"`, but it designates the freshly
allocated entity 1, not the pre-existing entity 0 — the existing entity is
not reused; a second one is allocated. -/
theorem claim1_counterexample :
    lookupA stA.registry "s" = some 0
      ∧ lookupA ((step cfgW stA (.webhookRtmsStarted "s" "t" (some "ws://sig"))).1).registry "s" =
          some 1
      ∧ ((step cfgW stA (.webhookRtmsStarted "s" "t" (some "ws://sig"))).1).nextConn = 2
      ∧ getConn ((step cfgW stA (.webhookRtmsStarted "s" "t" (some "ws://sig"))).1) 0 ≠ none := by
  refine ⟨by decide, by decide, by decide, by decide⟩

/-! ## Structural lemmas about the handlers -/
theorem sockets_updateConn (st : State) (cid : Nat) (f : Conn → Conn) :
    (updateConn st cid f).sockets = st.sockets := by
  unfold updateConn; split <;> rfl

theorem registry_updateConn (st : State) (cid : Nat) (f : Conn → Conn) :
    (updateConn st cid f).registry = st.registry := by
  unfold updateConn; split <;> rfl

theorem timers_updateConn (st : State) (cid : Nat) (f : Conn → Conn) :
    (updateConn st cid f).timers = st.timers := by
  unfold updateConn; split <;> rfl

theorem crashed_updateConn (st : State) (cid : Nat) (f : Conn → Conn) :
    (updateConn st cid f).crashed = st.crashed := by
  unfold updateConn; split <;> rfl

theorem nextTimer_updateConn (st : State) (cid : Nat) (f : Conn → Conn) :
    (updateConn st cid f).nextTimer = st.nextTimer := by
  unfold updateConn; split <;> rfl

theorem nextSock_updateConn (st : State) (cid : Nat) (f : Conn → Conn) :
    (updateConn st cid f).nextSock = st.nextSock := by
  unfold updateConn; split <;> rfl

theorem nextConn_updateConn (st : State) (cid : Nat) (f : Conn → Conn) :
    (updateConn st cid f).nextConn = st.nextConn := by
  unfold updateConn; split <;> rfl

theorem getConn_updateConn_self (st : State) (cid : Nat) (f : Conn → Conn) :
    getConn (updateConn st cid f) cid = (getConn st cid).map f := by
  unfold updateConn getConn
  cases h : lookupA st.conns cid with
  | none => simp [h]
  | some c => simp [h, lookupA_setA_self]

theorem lookupA_conns_updateConn_self (st : State) (cid : Nat) (f : Conn → Conn) :
    lookupA (updateConn st cid f).conns cid = (lookupA st.conns cid).map f :=
  getConn_updateConn_self st cid f

theorem conns_wsClose (st : State) (k : Nat) : (wsClose st k).conns = st.conns := by
  unfold wsClose
  split
  · rfl
  · split <;> rfl

theorem registry_wsClose (st : State) (k : Nat) : (wsClose st k).registry = st.registry := by
  unfold wsClose
  split
  · rfl
  · split <;> rfl

theorem conns_cleanupSub (st : State) (o : Option Nat) : (cleanupSub st o).conns = st.conns := by
  unfold cleanupSub
  split
  · rfl
  · split
    · rfl
    · split
      · rfl
      · exact conns_wsClose st _

theorem registry_cleanupSub (st : State) (o : Option Nat) :
    (cleanupSub st o).registry = st.registry := by
  unfold cleanupSub
  split
  · rfl
  · split
    · rfl
    · split
      · rfl
      · exact registry_wsClose st _

theorem lookupA_eraseA_self_of_nodup {κ α : Type} [DecidableEq κ] {l : List (κ × α)} {k : κ}
    (h : (l.map Prod.fst).Nodup) : lookupA (eraseA l k) k = none := by
  induction l with
  | nil => rfl
  | cons p t ih =>
    obtain ⟨k', v'⟩ := p
    simp only [List.map_cons, List.nodup_cons] at h
    obtain ⟨hk', ht⟩ := h
    simp only [eraseA]
    by_cases he : k' = k
    · rw [if_pos he]
      subst he
      cases hl : lookupA t k' with
      | none => rfl
      | some v =>
        exact absurd (List.mem_map_of_mem Prod.fst (lookupA_mem hl)) hk'
    · rw [if_neg he]
      simp only [lookupA]
      rw [if_neg he]
      exact ih ht

/-- `closeRequested` only looks at the socket heap. -/
theorem closeRequested_of_sockets_eq {st st' : State} (h : st'.sockets = st.sockets) (k : Nat)
    (hc : closeRequested st k) : closeRequested st' k := by
  unfold closeRequested at hc ⊢
  rw [h]
  exact hc

theorem isSome_lookupA_setA {κ α : Type} [DecidableEq κ] (l : List (κ × α)) (k k' : κ) (v : α)
    (h : (lookupA l k').isSome) : (lookupA (setA l k v) k').isSome := by
  by_cases he : k = k'
  · subst he
    rw [lookupA_setA_self]
    rfl
  · rw [lookupA_setA_ne _ _ _ _ he]
    exact h

theorem wsClose_closeRequested (st : State) (k : Nat)
    (h : (lookupA st.sockets k).isSome) : closeRequested (wsClose st k) k := by
  cases hk : lookupA st.sockets k with
  | none => rw [hk] at h; cases h
  | some s =>
    cases hs : s.readyState <;>
      simp [wsClose, closeRequested, hk, hs, lookupA_setA_self]

theorem cleanupSub_self_closeRequested (st : State) (k : Nat)
    (h : (lookupA st.sockets k).isSome) : closeRequested (cleanupSub st (some k)) k := by
  cases hk : lookupA st.sockets k with
  | none => rw [hk] at h; cases h
  | some s =>
    by_cases hs : s.readyState = .CONNECTING
    · simp [cleanupSub, closeRequested, hk, hs, lookupA_setA_self]
    · simp only [cleanupSub, hk, if_neg hs]
      exact wsClose_closeRequested st k h

theorem wsClose_mono_closeRequested (st : State) (k k' : Nat)
    (h : closeRequested st k) : closeRequested (wsClose st k') k := by
  cases hk' : lookupA st.sockets k' with
  | none => simp only [wsClose, hk']; exact h
  | some s' =>
    by_cases he : k' = k
    · subst he
      cases hs : s'.readyState with
      | CONNECTING => simp [wsClose, closeRequested, hk', hs, lookupA_setA_self]
      | OPEN => simp [wsClose, closeRequested, hk', hs, lookupA_setA_self]
      | CLOSING => simp only [wsClose, hk', hs]; exact h
      | CLOSED => simp only [wsClose, hk', hs]; exact h
    · cases hs : s'.readyState <;> simp only [wsClose, hk', hs] <;>
        first
        | exact h
        | · unfold closeRequested at h ⊢
            rw [lookupA_setA_ne _ _ _ _ fun hh => he hh]
            exact h

theorem cleanupSub_mono_closeRequested (st : State) (k : Nat) (o : Option Nat)
    (h : closeRequested st k) : closeRequested (cleanupSub st o) k := by
  cases o with
  | none => simp only [cleanupSub]; exact h
  | some k' =>
    cases hk' : lookupA st.sockets k' with
    | none => simp only [cleanupSub, hk']; exact h
    | some s' =>
      by_cases hs : s'.readyState = .CONNECTING
      · simp only [cleanupSub, hk', hs, if_true]
        by_cases he : k' = k
        · subst he
          simp [closeRequested, lookupA_setA_self]
        · unfold closeRequested at h ⊢
          rw [lookupA_setA_ne _ _ _ _ fun hh => he hh]
          exact h
      · simp only [cleanupSub, hk', if_neg hs]
        exact wsClose_mono_closeRequested st k k' h

/-- `closeRequested` is insensitive to conn updates. -/
theorem closeRequested_updateConn (st : State) (cid : Nat) (f : Conn → Conn) (k : Nat)
    (h : closeRequested st k) : closeRequested (updateConn st cid f) k :=
  closeRequested_of_sockets_eq (sockets_updateConn st cid f) k h

theorem isSome_sockets_updateConn (st : State) (cid : Nat) (f : Conn → Conn) (k : Nat)
    (h : (lookupA st.sockets k).isSome) :
    (lookupA (updateConn st cid f).sockets k).isSome := by
  rw [sockets_updateConn]
  exact h

theorem isSome_sockets_wsClose (st : State) (k' k : Nat)
    (h : (lookupA st.sockets k).isSome) :
    (lookupA (wsClose st k').sockets k).isSome := by
  cases hk' : lookupA st.sockets k' with
  | none => simp only [wsClose, hk']; exact h
  | some s' =>
    cases hs : s'.readyState <;> simp only [wsClose, hk', hs] <;>
      first
      | exact h
      | exact isSome_lookupA_setA _ _ _ _ h

theorem isSome_sockets_cleanupSub (st : State) (o : Option Nat) (k : Nat)
    (h : (lookupA st.sockets k).isSome) :
    (lookupA (cleanupSub st o).sockets k).isSome := by
  cases o with
  | none => simp only [cleanupSub]; exact h
  | some k' =>
    cases hk' : lookupA st.sockets k' with
    | none => simp only [cleanupSub, hk']; exact h
    | some s' =>
      by_cases hs : s'.readyState = .CONNECTING
      · simp only [cleanupSub, hk', hs, if_true]
        exact isSome_lookupA_setA _ _ _ _ h
      · simp only [cleanupSub, hk', if_neg hs]
        exact isSome_sockets_wsClose st k' k h

/-! ## Claim C9 -/
/-- C9 (confirmed). A malformed (non-parseable) inbound message on either
channel is logged and discarded: the step returns the state completely
unchanged (both sub-records untouched), the only action is the respective
parse-failure log (so nothing is sent), and no exception escapes the
dispatch (the step result is an ordinary state, not a crash). -/
theorem claim9_malformed (cfg : Config) (st : State) (k : Nat) (s : Socket) (now : Nat)
    (hcr : st.crashed = false)
    (hk : lookupA st.sockets k = some s)
    (hrs : s.readyState = .OPEN) :
    (step cfg st (.sockMessage k .malformed now)).1 = st
      ∧ ((step cfg st (.sockMessage k .malformed now)).2 =
            [.log "[Media] Failed to parse message"]
          ∨ (step cfg st (.sockMessage k .malformed now)).2 =
            [.log "[Signaling] Invalid JSON received"]) := by
  simp only [step, hcr, Bool.false_eq_true, if_false, hk, hrs, ne_eq, not_true_eq_false]
  cases hrole : s.role with
  | media u sid stream ks cid =>
    simp only [handleMediaMessage]
    exact ⟨trivial, Or.inl trivial⟩
  | signaling sid stream cid =>
    simp only [handleSignalingMessage]
    exact ⟨trivial, Or.inr trivial⟩

/-- C9 witness: a malformed frame delivered on the open media socket of the
fully connected fixture state leaves it untouched. -/
theorem claim9_malformed_witness :
    (step cfgW stB (.sockMessage 1 .malformed 99)).1 = stB
      ∧ ((step cfgW stB (.sockMessage 1 .malformed 99)).2 =
            [.log "[Media] Failed to parse message"]
          ∨ (step cfgW stB (.sockMessage 1 .malformed 99)).2 =
            [.log "[Signaling] Invalid JSON received"]) :=
  claim9_malformed cfgW stB 1 ⟨"ws://media", .OPEN, .media "ws://media" "s" "t" (some 0) 0, false⟩
    99 (by decide) (by decide) (by decide)

/-! ## Claim C8 -/
/-- C8 (confirmed). A keep-alive request (`msg_type` 12) on either channel
is answered on the very socket it arrived on with a message of the paired
type (`msg_type` 13) carrying the request's own `timestamp` field verbatim,
and nothing else happens: on the media channel the state is returned
unchanged; on the signaling channel the only state change is recording the
receipt time in `conn.signaling.lastKeepAlive` (the recording the spec's
§4.2 prescribes). -/
theorem claim8_keepalive (cfg : Config) (st : State) (k : Nat) (s : Socket) (m : InMsg)
    (now : Nat)
    (hcr : st.crashed = false)
    (hk : lookupA st.sockets k = some s)
    (hrs : s.readyState = .OPEN)
    (hm : m.msg_type = some 12) :
    ((∀ u sid stream ks cid, s.role = .media u sid stream ks cid →
        step cfg st (.sockMessage k (.json m) now) =
          (st, [.sent k (.keepAliveResp m.timestamp)]))
      ∧ (∀ sid stream cid, s.role = .signaling sid stream cid →
          step cfg st (.sockMessage k (.json m) now) =
            (updateConn st cid fun c =>
              { c with signaling := { c.signaling with lastKeepAlive := some now } },
             [.sent k (.keepAliveResp m.timestamp)]))
      ∧ (OutMsg.keepAliveResp m.timestamp).msgType = 13) := by
  refine ⟨?_, ?_, rfl⟩
  · intro u sid stream ks cid hrole
    simp [step, hcr, hk, hrs, hrole, handleMediaMessage, hm, wsSend]
  · intro sid stream cid hrole
    have hsk : lookupA (updateConn st cid fun c =>
        { c with signaling := { c.signaling with lastKeepAlive := some now } }).sockets k =
        some s := by
      rw [sockets_updateConn]; exact hk
    simp [step, hcr, hk, hrs, hrole, handleSignalingMessage, hm, wsSend, hsk]

/-- C8 witness: the theorem applied on the fixture's open signaling
socket 0 and media socket 1 in turn. -/
theorem claim8_keepalive_witness :
    step cfgW stB (.sockMessage 1 (.json msgKeepAlive) 42) =
        (stB, [.sent 1 (.keepAliveResp (some 777))])
      ∧ step cfgW stB (.sockMessage 0 (.json msgKeepAlive) 42) =
          (updateConn stB 0 fun c =>
            { c with signaling := { c.signaling with lastKeepAlive := some 42 } },
           [.sent 0 (.keepAliveResp (some 777))]) :=
  ⟨(claim8_keepalive cfgW stB 1
      ⟨"ws://media", .OPEN, .media "ws://media" "s" "t" (some 0) 0, false⟩ msgKeepAlive 42
      (by decide) (by decide) (by decide) (by decide)).1
      "ws://media" "s" "t" (some 0) 0 (by decide),
   (claim8_keepalive cfgW stB 0
      ⟨"ws://sig", .OPEN, .signaling "s" "t" 0, false⟩ msgKeepAlive 42
      (by decide) (by decide) (by decide) (by decide)).2.1 "s" "t" 0 (by decide)⟩

/-! ## Claim C10 -/
/-- C10 (corrected). When the media channel receives a handshake response
(`msg_type` 4) with status 0, what happens hinges on the captured
signaling socket, because `signalingSocket.send` precedes the
`conn.media.state = 'streaming'` assignment inside the handler's `try`:
with the captured socket `OPEN`, the stream-start request (`msg_type` 7,
carrying the session's streamId) goes out on it — never on the media
socket itself — and the media sub-state moves to `streaming` (the
original claim); with the captured socket still `CONNECTING`, `send`
throws, the `catch` swallows it, and *neither* the send *nor* the
streaming transition happens (refuting the claim's unconditional
transition — `claim10_counterexample` reaches this state through the
reconnect race); with the captured socket `CLOSING` or `CLOSED` the
library drops the frame silently yet the sub-state still moves to
`streaming`. On a non-zero (or absent) status only a log is emitted,
nothing is sent and the state is unchanged. -/
theorem claim10_stream_start (cfg : Config) (st : State) (k : Nat) (s s' : Socket) (m : InMsg)
    (now : Nat) (u sid stream : String) (ks cid : Nat)
    (hcr : st.crashed = false)
    (hk : lookupA st.sockets k = some s)
    (hrs : s.readyState = .OPEN)
    (hrole : s.role = .media u sid stream (some ks) cid)
    (hks : lookupA st.sockets ks = some s')
    (hne : ks ≠ k)
    (hm : m.msg_type = some 4) :
    ((m.status_code = some 0 → s'.readyState = .OPEN →
        step cfg st (.sockMessage k (.json m) now) =
          (updateConn st cid fun c => { c with media := { c.media with state := .streaming } },
           [.log "[Media] Handshake successful", .sent ks (.streamStartReq stream)])
        ∧ ∀ om, Action.sent k om ∉ (step cfg st (.sockMessage k (.json m) now)).2)
      ∧ (m.status_code = some 0 → s'.readyState = .CONNECTING →
          step cfg st (.sockMessage k (.json m) now) =
            (st, [.log "[Media] Handshake successful",
                  .log "[Media] Failed to parse message"]))
      ∧ (m.status_code = some 0 →
          s'.readyState = .CLOSING ∨ s'.readyState = .CLOSED →
          step cfg st (.sockMessage k (.json m) now) =
            (updateConn st cid fun c => { c with media := { c.media with state := .streaming } },
             [.log "[Media] Handshake successful", .dropped ks (.streamStartReq stream)]))
      ∧ (m.status_code ≠ some 0 →
          step cfg st (.sockMessage k (.json m) now) = (st, [.log "[Media] Handshake failed"]))
      ∧ (OutMsg.streamStartReq stream).msgType = 7) := by
  refine ⟨?_, ?_, ?_, ?_, rfl⟩
  · intro hsc hrs'
    have heq : step cfg st (.sockMessage k (.json m) now) =
        (updateConn st cid fun c => { c with media := { c.media with state := .streaming } },
         [.log "[Media] Handshake successful", .sent ks (.streamStartReq stream)]) := by
      simp [step, hcr, hk, hrs, hrole, handleMediaMessage, hm, hsc, wsSend, hks, hrs']
    refine ⟨heq, ?_⟩
    rw [heq]
    intro om hmem
    rcases List.mem_cons.mp hmem with hx | hx
    · cases hx
    · have hx' := List.mem_singleton.mp hx
      cases hx'
      exact hne rfl
  · intro hsc hrs'
    simp [step, hcr, hk, hrs, hrole, handleMediaMessage, hm, hsc, wsSend, hks, hrs']
  · intro hsc hrs'
    rcases hrs' with hrs' | hrs' <;>
      simp [step, hcr, hk, hrs, hrole, handleMediaMessage, hm, hsc, wsSend, hks, hrs']
  · intro hsc
    simp [step, hcr, hk, hrs, hrole, handleMediaMessage, hm, hsc]

/-! ## Claim C5 -/
theorem getConn_cleanupSub (st : State) (o : Option Nat) (cid : Nat) :
    getConn (cleanupSub st o) cid = getConn st cid := by
  unfold getConn
  rw [conns_cleanupSub]

/-- C5 (confirmed). A `STREAM_STATE_CHANGED` signaling message carrying the
terminal pair `(state, reason) = (4, 6)` tears the session down completely:
the entity disappears from the registry, its `shouldReconnect` is false,
both sub-states are `closed`, and both the signaling and the media socket
have been requested to close (immediately, or deferred to their `open`
event if still connecting). -/
theorem claim5_teardown (cfg : Config) (st : State) (k : Nat) (s : Socket) (m : InMsg)
    (now : Nat) (sid stream : String) (cid : Nat) (c : Conn) (k1 k2 : Nat)
    (hcr : st.crashed = false)
    (hnd : (st.registry.map Prod.fst).Nodup)
    (hk : lookupA st.sockets k = some s)
    (hrs : s.readyState = .OPEN)
    (hrole : s.role = .signaling sid stream cid)
    (hm : m.msg_type = some 8)
    (hr6 : m.reason = some 6)
    (hs4 : m.state = some 4)
    (hreg : lookupA st.registry sid = some cid)
    (hc : getConn st cid = some c)
    (h1 : c.signaling.socket = some k1)
    (hk1 : (lookupA st.sockets k1).isSome)
    (h2 : c.media.socket = some k2)
    (hk2 : (lookupA st.sockets k2).isSome) :
    ∀ st', st' = (step cfg st (.sockMessage k (.json m) now)).1 →
      lookupA st'.registry sid = none
      ∧ getConn st' cid = some { c with
          shouldReconnect := false,
          signaling := { c.signaling with state := .closed },
          media := { c.media with state := .closed } }
      ∧ closeRequested st' k1
      ∧ closeRequested st' k2 := by
  intro st' hst'
  have hstep1 : (step cfg st (.sockMessage k (.json m) now)).1 = (cleanupConnection sid st).1 := by
    simp [step, hcr, hk, hrs, hrole, handleSignalingMessage, hm, hr6, hs4]
  subst hst'
  rw [hstep1]
  simp only [cleanupConnection, hreg, hc, h1, h2, Option.isSome_some, if_true]
  refine ⟨?_, ?_, ?_, ?_⟩
  · rw [registry_cleanupSub, registry_updateConn, registry_cleanupSub, registry_updateConn,
      registry_updateConn]
    exact lookupA_eraseA_self_of_nodup hnd
  · show getConn _ cid = _
    rw [show ∀ (x : State) (r : List (String × Nat)),
          getConn { x with registry := r } cid = getConn x cid from fun _ _ => rfl]
    rw [getConn_cleanupSub, getConn_updateConn_self, getConn_cleanupSub,
      getConn_updateConn_self, getConn_updateConn_self, hc]
    simp [h1, h2]
  · apply closeRequested_of_sockets_eq (show _ from rfl)
    apply cleanupSub_mono_closeRequested
    apply closeRequested_updateConn
    apply cleanupSub_self_closeRequested
    rw [sockets_updateConn, sockets_updateConn]
    exact hk1
  · apply closeRequested_of_sockets_eq (show _ from rfl)
    apply cleanupSub_self_closeRequested
    rw [sockets_updateConn]
    apply isSome_sockets_cleanupSub
    rw [sockets_updateConn, sockets_updateConn]
    exact hk2

/-- C5 witness: delivering the terminal stream-state message on the
fixture's open signaling socket 0 removes session `"s"` from the registry,
clears `shouldReconnect`, and requests both sockets closed. -/
theorem claim5_teardown_witness :
    lookupA ((step cfgW stB (.sockMessage 0 (.json msgTerminal) 3)).1).registry "s" = none
      ∧ getConn ((step cfgW stB (.sockMessage 0 (.json msgTerminal) 3)).1) 0 =
          some { sessionId := "s", streamId := "t", serverUrls := "ws://sig",
                 shouldReconnect := false,
                 signaling := ⟨some 0, .closed, none⟩, media := ⟨some 1, .closed, none⟩ }
      ∧ closeRequested ((step cfgW stB (.sockMessage 0 (.json msgTerminal) 3)).1) 0
      ∧ closeRequested ((step cfgW stB (.sockMessage 0 (.json msgTerminal) 3)).1) 1 := by
  have h := claim5_teardown cfgW stB 0 ⟨"ws://sig", .OPEN, .signaling "s" "t" 0, false⟩
    msgTerminal 3 "s" "t" 0
    { sessionId := "s", streamId := "t", serverUrls := "ws://sig", shouldReconnect := true,
      signaling := ⟨some 0, .ready, none⟩, media := ⟨some 1, .authenticated, none⟩ } 0 1
    (by decide) (by decide) (by decide) (by decide) (by decide) (by decide) (by decide)
    (by decide) (by decide) (by decide) (by decide) (by decide) (by decide) (by decide)
    _ rfl
  exact h

/-- The socket-liveness test the media close handler performs, rewritten
over the pre-close heap: looking the signaling handle up after the closing
socket `k` has been marked `CLOSED` is `sigOpenAfterMediaClose`. -/
theorem sigOpen_translate (st : State) (c : Conn) (k : Nat) (uu : String) (ro : SockRole)
    (bo : Bool) :
    (match c.signaling.socket with
      | some q =>
        match lookupA (setA st.sockets k ⟨uu, .CLOSED, ro, bo⟩) q with
        | some sq => decide (sq.readyState = WsReady.OPEN)
        | none => false
      | none => false) = sigOpenAfterMediaClose st c k := by
  unfold sigOpenAfterMediaClose
  cases c.signaling.socket with
  | none => rfl
  | some q =>
    show (match lookupA (setA st.sockets k ⟨uu, .CLOSED, ro, bo⟩) q with
        | some sq => decide (sq.readyState = WsReady.OPEN)
        | none => false) =
      (if q = k then false
        else match lookupA st.sockets q with
          | some sq => decide (sq.readyState = WsReady.OPEN)
          | none => false)
    by_cases hqk : q = k
    · subst hqk
      rw [lookupA_setA_self, if_pos rfl]
      rfl
    · rw [if_neg hqk, lookupA_setA_ne _ _ _ _ fun h => hqk h.symm]

/-- C6 (confirmed). When the media socket of an entity with
`shouldReconnect` still true closes: if the signaling sub-state is `ready`
and the signaling socket is open, a media-only reconnect timer (3000 ms)
carrying the same media endpoint and the same entity is scheduled — no new
socket, no registry change, the entity merely records the media sub-state
`closed`; otherwise the full pair is restarted through the signaling
connect path with the entity passed through: a fresh signaling socket for
the same entity id is allocated, the registry is untouched (no
re-registration), and the entity's signaling sub-record now points at the
new socket. -/
theorem claim6_media_close (cfg : Config) (st : State) (k : Nat) (s : Socket)
    (u sid stream : String) (oks : Option Nat) (cid : Nat) (c : Conn)
    (hcr : st.crashed = false)
    (hk : lookupA st.sockets k = some s)
    (hrole : s.role = .media u sid stream oks cid)
    (hrs : s.readyState ≠ .CLOSED)
    (hc : getConn st cid = some c)
    (hsr : c.shouldReconnect = true)
    (hurl : wsUrlOk c.serverUrls = true) :
    ((c.signaling.state = .ready ∧ sigOpenAfterMediaClose st c k = true →
        (step cfg st (.sockClose k)).1.timers =
            setA st.timers st.nextTimer ⟨3000, .mediaReconnect u sid stream cid⟩
          ∧ (step cfg st (.sockClose k)).1.nextSock = st.nextSock
          ∧ (step cfg st (.sockClose k)).1.registry = st.registry
          ∧ getConn (step cfg st (.sockClose k)).1 cid =
              some { c with media := { c.media with state := .closed } })
      ∧ (¬(c.signaling.state = .ready ∧ sigOpenAfterMediaClose st c k = true) →
          (step cfg st (.sockClose k)).1.nextSock = st.nextSock + 1
            ∧ lookupA (step cfg st (.sockClose k)).1.sockets st.nextSock =
                some ⟨c.serverUrls, .CONNECTING, .signaling sid stream cid, false⟩
            ∧ (step cfg st (.sockClose k)).1.registry = st.registry
            ∧ (step cfg st (.sockClose k)).1.timers = st.timers
            ∧ getConn (step cfg st (.sockClose k)).1 cid =
                some { c with
                  media := { c.media with state := .closed },
                  signaling := { c.signaling with
                    socket := some st.nextSock, state := .connecting } })) := by
  have hws := strStartsWith_ws_of_wsUrlOk hurl
  have hc' : lookupA st.conns cid = some c := hc
  constructor
  · rintro ⟨hready, hopen⟩
    simp only [step, hcr, Bool.false_eq_true, if_false, onSockClose, hk, hrs, hrole,
      getConn, lookupA_conns_updateConn_self, hc', Option.map_some', hsr, not_true_eq_false,
      if_false, sigSockOpen, sockets_updateConn, sigOpen_translate]
    rw [if_pos ⟨hready, hopen⟩]
    simp only [timers_updateConn, nextTimer_updateConn, nextSock_updateConn,
      registry_updateConn, getConn, lookupA_conns_updateConn_self, hc', Option.map_some']
    refine ⟨?_, ?_, ?_, ?_⟩ <;> first | trivial | simp [hsr]
  · intro hneg
    simp only [step, hcr, Bool.false_eq_true, if_false, onSockClose, hk, hrs, hrole,
      getConn, lookupA_conns_updateConn_self, hc', Option.map_some', hsr, not_true_eq_false,
      if_false, sigSockOpen, sockets_updateConn, sigOpen_translate]
    rw [if_neg hneg]
    simp only [connectToSignalingWebSocket, hws, Bool.true_eq_false, not_false_eq_true,
      hurl, if_true, ite_false, ite_true, not_true, if_false, nextSock_updateConn,
      timers_updateConn, registry_updateConn, sockets_updateConn, lookupA_setA_self,
      getConn, lookupA_conns_updateConn_self, hc', Option.map_some', nextTimer_updateConn]
    refine ⟨?_, ?_, ?_, ?_, ?_⟩ <;> first | trivial | simp [hsr]

/-- C6 witness: closing the fixture's media socket 1 while signaling is
ready on the open socket 0 schedules the 3-second media-only reconnect
timer for the same endpoint and entity, with no new socket and no registry
change. -/
theorem claim6_media_close_witness :
    (step cfgW stB (.sockClose 1)).1.timers =
        setA stB.timers stB.nextTimer ⟨3000, .mediaReconnect "ws://media" "s" "t" 0⟩
      ∧ (step cfgW stB (.sockClose 1)).1.nextSock = stB.nextSock
      ∧ (step cfgW stB (.sockClose 1)).1.registry = stB.registry
      ∧ getConn (step cfgW stB (.sockClose 1)).1 0 =
          some { sessionId := "s", streamId := "t", serverUrls := "ws://sig",
                 shouldReconnect := true,
                 signaling := ⟨some 0, .ready, none⟩, media := ⟨some 1, .closed, none⟩ } :=
  (claim6_media_close cfgW stB 1
    ⟨"ws://media", .OPEN, .media "ws://media" "s" "t" (some 0) 0, false⟩
    "ws://media" "s" "t" (some 0) 0
    { sessionId := "s", streamId := "t", serverUrls := "ws://sig", shouldReconnect := true,
      signaling := ⟨some 0, .ready, none⟩, media := ⟨some 1, .authenticated, none⟩ }
    (by decide) (by decide) (by decide) (by decide) (by decide) (by decide)
    (by decide)).1 ⟨by decide, by decide⟩

theorem revOk_append {rtr : List Action} {a : List Action}
    (h : RevOk rtr) (hA : ActsOk rtr a) : RevOk (a.reverse ++ rtr) := by
  induction a generalizing rtr with
  | nil => simpa
  | cons x rest ih =>
    obtain ⟨hx, hrest⟩ := hA
    have h1 : RevOk (x :: rtr) := RevOk.cons x rtr hx h
    have h2 := ih h1 hrest
    simpa [List.append_assoc] using h2

theorem revOk_mid {m1 m2 : List Action} {x : Action} {sid u : String}
    (h : RevOk (m1 ++ x :: m2)) (hm : mediaCreates x = some (sid, u)) :
    Action.sigHandshakeOk sid (some u) ∈ m2 := by
  induction m1 with
  | nil =>
    cases h with
    | cons _ _ hx _ => exact hx _ _ hm
  | cons y m1' ih =>
    cases h with
    | cons _ _ _ htr => exact ih htr

theorem actsOk_no_creates {below a : List Action}
    (h : ∀ x ∈ a, mediaCreates x = none) : ActsOk below a := by
  induction a generalizing below with
  | nil => trivial
  | cons x rest ih =>
    refine ⟨?_, ih fun y hy => h y (List.mem_cons_of_mem _ hy)⟩
    intro sid u hx
    rw [h x (List.mem_cons_self _ _)] at hx
    cases hx

theorem sockOkL_mono {l : List (Nat × Socket)} {rtr rtr' : List Action}
    (h : SockOkL l rtr) (hsub : ∀ x ∈ rtr, x ∈ rtr') : SockOkL l rtr' :=
  fun p hp u sid stream ks cid hrole => hsub _ (h p hp u sid stream ks cid hrole)

theorem timerOkL_mono {l : List (Nat × Timer)} {rtr rtr' : List Action}
    (h : TimerOkL l rtr) (hsub : ∀ x ∈ rtr, x ∈ rtr') : TimerOkL l rtr' :=
  fun p hp u sid stream cid hjob => hsub _ (h p hp u sid stream cid hjob)

theorem mem_append_rtr (a : List Action) (rtr : List Action) :
    ∀ x ∈ rtr, x ∈ a ++ rtr := fun _ hx => List.mem_append_right _ hx

/-- Extending the trace with actions that create no media socket. -/
theorem inv_extend_no_creates {st : State} {rtr a : List Action}
    (h : Inv st rtr) (ha : ∀ x ∈ a, mediaCreates x = none) :
    Inv st (a.reverse ++ rtr) :=
  ⟨sockOkL_mono h.1 (mem_append_rtr _ _), timerOkL_mono h.2.1 (mem_append_rtr _ _),
   revOk_append h.2.2 (actsOk_no_creates ha)⟩

/-- `Inv` only reads the socket heap and the timer heap. -/
theorem inv_of_eq {st st' : State} {rtr : List Action}
    (h : Inv st rtr) (hs : st'.sockets = st.sockets) (ht : st'.timers = st.timers) :
    Inv st' rtr := by
  refine ⟨?_, ?_, h.2.2⟩
  · rw [hs]; exact h.1
  · rw [ht]; exact h.2.1

/-! ## Claim C2 -/
/-- C2 (corrected). After `stop(sessionId)` (`cleanupConnection`) the
entity's `shouldReconnect` is false, and a stale *signaling* reconnection
timer firing later is a pure no-op (its callback re-checks
`shouldReconnect`): the step only removes the timer and performs no action.
But a stale *media* reconnection timer does **not** re-check
`shouldReconnect`: when it fires it creates a brand-new media socket
(refuting the claim's "no new socket is created by a stale timer" —
`claim2_counterexample`); the step still sends nothing, and the new
socket's own `open` handler then closes it without ever handshaking. -/
theorem claim2_stop_cancels :
    (∀ (st : State) (sid : String) (cid : Nat) (c : Conn),
        lookupA st.registry sid = some cid → getConn st cid = some c →
        ∃ c', getConn (cleanupConnection sid st).1 cid = some c'
          ∧ c'.shouldReconnect = false)
    ∧ (∀ (cfg : Config) (st : State) (tid d : Nat) (sid stream : String) (cid : Nat) (c : Conn),
        st.crashed = false →
        lookupA st.timers tid = some ⟨d, .signalingReconnect sid stream cid⟩ →
        getConn st cid = some c → c.shouldReconnect = false →
        step cfg st (.timerFire tid) = ({ st with timers := eraseA st.timers tid }, []))
    ∧ (∀ (cfg : Config) (st : State) (tid d : Nat) (u sid stream : String) (cid : Nat)
        (c : Conn),
        st.crashed = false →
        lookupA st.timers tid = some ⟨d, .mediaReconnect u sid stream cid⟩ →
        getConn st cid = some c → c.shouldReconnect = false → wsUrlOk u = true →
        (step cfg st (.timerFire tid)).1.nextSock = st.nextSock + 1
        ∧ lookupA (step cfg st (.timerFire tid)).1.sockets st.nextSock =
            some ⟨u, .CONNECTING, .media u sid stream c.signaling.socket cid, false⟩
        ∧ (∀ k' om, Action.sent k' om ∉ (step cfg st (.timerFire tid)).2)
        ∧ ∀ st₂, st₂ = (step cfg st (.timerFire tid)).1 →
            (step cfg st₂ (.sockOpen st.nextSock)).2 = []
            ∧ closeRequested (step cfg st₂ (.sockOpen st.nextSock)).1 st.nextSock) := by
  refine ⟨?_, ?_, ?_⟩
  · intro st sid cid c hreg hc
    have hc' : lookupA st.conns cid = some c := hc
    by_cases h1 : c.signaling.socket.isSome <;> by_cases h2 : c.media.socket.isSome <;>
      simp only [cleanupConnection, hreg, hc, h1, h2, if_true, if_false,
        Bool.false_eq_true, getConn, conns_cleanupSub, lookupA_conns_updateConn_self,
        hc', Option.map_some'] <;>
      exact ⟨_, rfl, rfl⟩
  · intro cfg st tid d sid stream cid c hcr htid hc hsrf
    have hc' : lookupA st.conns cid = some c := hc
    simp only [step]
    rw [if_neg (by simp [hcr])]
    simp only [onTimerFire, htid, getConn, hc', hsrf, Bool.false_eq_true, if_false]
  · intro cfg st tid d u sid stream cid c hcr htid hc hsrf hu
    have hc' : lookupA st.conns cid = some c := hc
    have hstep : step cfg st (.timerFire tid) =
        (updateConn { st with
            timers := eraseA st.timers tid,
            sockets := setA st.sockets st.nextSock
              ⟨u, .CONNECTING, .media u sid stream c.signaling.socket cid, false⟩,
            nextSock := st.nextSock + 1 } cid
          (fun c' => { c' with media := { c'.media with
            socket := some st.nextSock, state := .connecting } }),
         [.log "[Media] Connecting", .sockCreated st.nextSock u
            (.media u sid stream c.signaling.socket cid)]) := by
      simp only [step]
      rw [if_neg (by simp [hcr])]
      simp only [onTimerFire, htid, getConn, hc', connectToMediaWebSocket, hu, if_true,
        ite_true]
    rw [hstep]
    refine ⟨by rw [nextSock_updateConn], by rw [sockets_updateConn]; exact lookupA_setA_self _ _ _,
      ?_, ?_⟩
    · intro k' om hmem
      simp at hmem
    · intro st₂ hst₂
      have hs₂ : lookupA st₂.sockets st.nextSock =
          some ⟨u, .CONNECTING, .media u sid stream c.signaling.socket cid, false⟩ := by
        rw [hst₂, sockets_updateConn]
        exact lookupA_setA_self _ _ _
      have hc₂ : lookupA st₂.conns cid = some { c with media := { c.media with
          socket := some st.nextSock, state := .connecting } } := by
        rw [hst₂]
        rw [lookupA_conns_updateConn_self]
        show (lookupA st.conns cid).map _ = _
        rw [hc']
        rfl
      have hopen : step cfg st₂ (.sockOpen st.nextSock) =
          (wsClose { st₂ with sockets := setA st₂.sockets st.nextSock ⟨u, .OPEN, .media u sid stream c.signaling.socket cid, false⟩ } st.nextSock, []) := by
        simp only [step, onSockOpen, hs₂]
        rw [if_neg (by rw [hst₂, crashed_updateConn]; simp [hcr])]
        simp only [ne_eq, not_true_eq_false, if_false, Bool.false_eq_true, ite_false,
          getConn, hc₂, hsrf, not_false_eq_true, if_true, ite_true]
      rw [hopen]
      refine ⟨rfl, ?_⟩
      apply wsClose_closeRequested
      rw [lookupA_setA_self]
      rfl

/-- C2 witness: parts of the amended theorem applied concretely — cleanup
of the registered fixture session flips `shouldReconnect` off, and a stale
media timer in a torn-down state creates socket 2 while sending nothing. -/
theorem claim2_stop_cancels_witness :
    (∃ c', getConn (cleanupConnection "s" stB).1 0 = some c' ∧ c'.shouldReconnect = false)
      ∧ (step cfgW (run cfgW init [.webhookRtmsStarted "s" "t" (some "ws://sig"), .sockOpen 0,
            .sockMessage 0 (.json msgHandshakeOk) 5, .sockOpen 1, .sockClose 1,
            .webhookRtmsStopped "s"]).1 (.timerFire 0)).1.nextSock =
          (run cfgW init [.webhookRtmsStarted "s" "t" (some "ws://sig"), .sockOpen 0,
            .sockMessage 0 (.json msgHandshakeOk) 5, .sockOpen 1, .sockClose 1,
            .webhookRtmsStopped "s"]).1.nextSock + 1 :=
  ⟨claim2_stop_cancels.1 stB "s" 0
      { sessionId := "s", streamId := "t", serverUrls := "ws://sig", shouldReconnect := true,
        signaling := ⟨some 0, .ready, none⟩, media := ⟨some 1, .authenticated, none⟩ }
      (by decide) (by decide),
   (claim2_stop_cancels.2.2 cfgW
      (run cfgW init [.webhookRtmsStarted "s" "t" (some "ws://sig"), .sockOpen 0,
        .sockMessage 0 (.json msgHandshakeOk) 5, .sockOpen 1, .sockClose 1,
        .webhookRtmsStopped "s"]).1 0 3000 "ws://media" "s" "t" 0
      { sessionId := "s", streamId := "t", serverUrls := "ws://sig", shouldReconnect := false,
        signaling := ⟨some 0, .closed, none⟩, media := ⟨some 1, .closed, none⟩ }
      (by decide) (by decide) (by decide) (by decide) (by decide)).1⟩

/-- C2 counterexample: the concrete scenario of the claim — media
reconnect timer scheduled, session stopped (`shouldReconnect` false,
registry emptied), clock advanced (timer fires) — and a new media socket
*is* created by the stale timer: the step's actions contain a
`sockCreated` and the socket counter grows. -/
theorem claim2_counterexample :
    lookupA (run cfgW init [.webhookRtmsStarted "s" "t" (some "ws://sig"), .sockOpen 0,
        .sockMessage 0 (.json msgHandshakeOk) 5, .sockOpen 1, .sockClose 1,
        .webhookRtmsStopped "s"]).1.timers 0 =
        some ⟨3000, .mediaReconnect "ws://media" "s" "t" 0⟩
      ∧ ((getConn (run cfgW init [.webhookRtmsStarted "s" "t" (some "ws://sig"), .sockOpen 0,
            .sockMessage 0 (.json msgHandshakeOk) 5, .sockOpen 1, .sockClose 1,
            .webhookRtmsStopped "s"]).1 0).map Conn.shouldReconnect = some false)
      ∧ (step cfgW (run cfgW init [.webhookRtmsStarted "s" "t" (some "ws://sig"), .sockOpen 0,
            .sockMessage 0 (.json msgHandshakeOk) 5, .sockOpen 1, .sockClose 1,
            .webhookRtmsStopped "s"]).1 (.timerFire 0)).2 =
          [.log "[Media] Connecting", .sockCreated 2 "ws://media"
            (.media "ws://media" "s" "t" (some 0) 0)]
      ∧ (step cfgW (run cfgW init [.webhookRtmsStarted "s" "t" (some "ws://sig"), .sockOpen 0,
            .sockMessage 0 (.json msgHandshakeOk) 5, .sockOpen 1, .sockClose 1,
            .webhookRtmsStopped "s"]).1 (.timerFire 0)).1.nextSock = 3 := by
  refine ⟨by decide, by decide, by decide, by decide⟩

/-! ## Claim C3 -/
theorem crashed_wsClose (st : State) (k : Nat) : (wsClose st k).crashed = st.crashed := by
  unfold wsClose
  split
  · rfl
  · split <;> rfl

theorem crashed_cleanupSub (st : State) (o : Option Nat) :
    (cleanupSub st o).crashed = st.crashed := by
  unfold cleanupSub
  split
  · rfl
  · split
    · rfl
    · split
      · rfl
      · exact crashed_wsClose st _

theorem crashed_cleanupConnection (sid : String) (st : State) :
    (cleanupConnection sid st).1.crashed = st.crashed := by
  cases hreg : lookupA st.registry sid with
  | none => simp [cleanupConnection, hreg]
  | some cid =>
    cases hc : getConn st cid with
    | none => simp [cleanupConnection, hreg, hc]
    | some c =>
      by_cases h1 : c.signaling.socket.isSome <;> by_cases h2 : c.media.socket.isSome <;>
        simp [cleanupConnection, hreg, hc, h1, h2, crashed_cleanupSub, crashed_updateConn]

theorem crashed_handleMediaMessage (st : State) (d : WireData) (cid k : Nat)
    (ks : Option Nat) (stream : String) :
    ((handleMediaMessage st d cid k ks stream).1).crashed = st.crashed := by
  cases d with
  | malformed => rfl
  | json m =>
    simp only [handleMediaMessage]
    repeat' split
    all_goals first | rfl | simp [crashed_updateConn]

theorem crashed_connectToMedia_ok (mu : Option String) (sid stream : String)
    (ks : Option Nat) (cid : Nat) (st : State) (p : State × List Action)
    (h : connectToMediaWebSocket mu sid stream ks cid st = .ok p) :
    p.1.crashed = st.crashed := by
  cases mu with
  | none => cases h
  | some u =>
    by_cases hu : wsUrlOk u = true
    · simp only [connectToMediaWebSocket, hu, if_true, ite_true] at h
      cases h
      simp [crashed_updateConn]
    · simp only [connectToMediaWebSocket, Bool.not_eq_true] at h
      rw [Bool.not_eq_true] at hu
      rw [hu] at h
      cases h

theorem connectToMedia_error_iff (mu : Option String) (sid stream : String)
    (ks : Option Nat) (cid : Nat) (st : State) :
    (∃ e, connectToMediaWebSocket mu sid stream ks cid st = .error e) ↔
      (match mu with | some u => wsUrlOk u | none => false) = false := by
  cases mu with
  | none => simp [connectToMediaWebSocket]
  | some u =>
    by_cases hu : wsUrlOk u = true <;>
      simp [connectToMediaWebSocket, hu]

theorem crashed_handleSignaling_ok (st : State) (k : Nat) (sid stream : String) (cid : Nat)
    (d : WireData) (now : Nat) (r : State × List Action)
    (h : handleSignalingMessage st k sid stream cid d now = .ok r) :
    r.1.crashed = st.crashed := by
  cases d with
  | malformed => cases h; rfl
  | json m =>
    simp only [handleSignalingMessage] at h
    split at h
    · split at h
      · split at h
        · cases h
        · rename_i st₂a heq
          split at h
          · cases h
          · cases h
            exact (crashed_connectToMedia_ok _ _ _ _ _ _ _ heq).trans
              (crashed_updateConn _ _ _)
      · cases h; rfl
    · split at h
      · cases h; rfl
      · split at h <;> (cases h; rfl)
    · split at h
      · cases hcl : cleanupConnection sid st with
        | mk st' a' =>
          rw [hcl] at h
          cases h
          have := crashed_cleanupConnection sid st
          rw [hcl] at this
          exact this
      · cases h; rfl
    · cases h; rfl
    · split at h
      · cases h
      · cases h
        simp [crashed_updateConn]
    · cases h; rfl

theorem handleSignaling_error_iff (st : State) (k : Nat) (sid stream : String) (cid : Nat)
    (d : WireData) (now : Nat) (s : Socket)
    (hk : lookupA st.sockets k = some s) (hrs : s.readyState = .OPEN) :
    (∃ e, handleSignalingMessage st k sid stream cid d now = .error e) ↔
      ∃ m, d = .json m ∧ m.msg_type = some 2 ∧ m.status_code = some 0 ∧
        mediaUrlUsable m = false := by
  cases d with
  | malformed => simp [handleSignalingMessage]
  | json m =>
    simp only [handleSignalingMessage]
    split
    · rename_i hmt
      by_cases hsc : m.status_code = some 0
      · rw [if_pos hsc]
        constructor
        · rintro ⟨e, he⟩
          split at he
          · rename_i heq
            refine ⟨m, rfl, hmt, hsc, ?_⟩
            have := (connectToMedia_error_iff m.mediaUrl sid stream (some k) cid
              (updateConn st cid fun c =>
                { c with signaling := { c.signaling with state := .ready } })).mp ⟨_, heq⟩
            exact this
          · split at he
            · rename_i e' heqw
              have hsk2 : lookupA (updateConn st cid fun c =>
                  { c with signaling := { c.signaling with state := .ready } }).sockets k =
                  some s := by rw [sockets_updateConn]; exact hk
              simp [wsSend, hsk2, hrs] at heqw
            · cases he
        · rintro ⟨m', hm', _, _, husable⟩
          cases hm'
          rcases (connectToMedia_error_iff m.mediaUrl sid stream (some k) cid
            (updateConn st cid fun c =>
              { c with signaling := { c.signaling with state := .ready } })).mpr husable
            with ⟨e, he⟩
          rw [he]
          exact ⟨e, rfl⟩
      · rw [if_neg hsc]
        simp only [reduceCtorEq, exists_false, false_iff, not_exists]
        rintro m' ⟨hm', _, hsc', _⟩
        cases hm'
        exact hsc hsc'
    · rename_i hmt
      constructor
      · rintro ⟨e, he⟩
        split at he
        · cases he
        · split at he <;> cases he
      · rintro ⟨m', hm', hmt', _, _⟩
        cases hm'
        rw [hmt] at hmt'
        exact absurd hmt' (by decide)
    · rename_i hmt
      constructor
      · rintro ⟨e, he⟩
        split at he
        · rcases hcl : cleanupConnection sid st with ⟨st', a'⟩
          rw [hcl] at he
          cases he
        · cases he
      · rintro ⟨m', hm', hmt', _, _⟩
        cases hm'
        rw [hmt] at hmt'
        exact absurd hmt' (by decide)
    · rename_i hmt
      constructor
      · rintro ⟨e, he⟩
        cases he
      · rintro ⟨m', hm', hmt', _, _⟩
        cases hm'
        rw [hmt] at hmt'
        exact absurd hmt' (by decide)
    · rename_i hmt
      constructor
      · rintro ⟨e, he⟩
        split at he
        · rename_i e' heqw
          have hsk2 : lookupA (updateConn st cid fun c =>
              { c with signaling :=
                { c.signaling with lastKeepAlive := some now } }).sockets k = some s := by
            rw [sockets_updateConn]; exact hk
          simp [wsSend, hsk2, hrs] at heqw
        · cases he
      · rintro ⟨m', hm', hmt', _, _⟩
        cases hm'
        rw [hmt] at hmt'
        exact absurd hmt' (by decide)
    · rename_i hx hn2 hn6 hn8 hn9 hn12
      constructor
      · rintro ⟨e, he⟩
        cases he
      · rintro ⟨m', hm', hmt', _, _⟩
        cases hm'
        exact absurd hmt' hn2

/-- C3 (corrected). Handling a message on the *media* channel can never
crash the process: the whole of `handleMediaMessage` sits in `try/catch`,
so the `crashed` flag is exactly preserved for every message. On the
*signaling* channel only `JSON.parse` is guarded: handling a message
crashes the process exactly when it is a well-formed handshake response
(`msg_type` 2) with status 0 whose payload lacks a usable
`media_server.server_urls.audio` endpoint — then the media `WebSocket`
constructor throws out of the message handler (`claim3_counterexample`
exhibits the crash, refuting "never throws ... every failure is terminal
only to the specific socket/session"). Every other signaling message —
malformed JSON included — is absorbed. -/
theorem claim3_fault_propagation :
    (∀ (cfg : Config) (st : State) (k : Nat) (s : Socket) (d : WireData) (now : Nat)
        (u sid stream : String) (ks : Option Nat) (cid : Nat),
        lookupA st.sockets k = some s → s.role = .media u sid stream ks cid →
        (step cfg st (.sockMessage k d now)).1.crashed = st.crashed)
    ∧ (∀ (cfg : Config) (st : State) (k : Nat) (s : Socket) (d : WireData) (now : Nat)
        (sid stream : String) (cid : Nat),
        st.crashed = false →
        lookupA st.sockets k = some s → s.readyState = .OPEN →
        s.role = .signaling sid stream cid →
        ((step cfg st (.sockMessage k d now)).1.crashed = true ↔
          ∃ m, d = .json m ∧ m.msg_type = some 2 ∧ m.status_code = some 0 ∧
            mediaUrlUsable m = false)) := by
  constructor
  · intro cfg st k s d now u sid stream ks cid hk hrole
    by_cases hcr : st.crashed = true
    · simp [step, hcr]
    · rw [Bool.not_eq_true] at hcr
      simp only [step]
      rw [if_neg (by simp [hcr])]
      simp only [hk]
      by_cases hrs : s.readyState = .OPEN
      · simp only [hrs, ne_eq, not_true_eq_false, if_false, ite_false, hrole]
        exact crashed_handleMediaMessage st d cid k ks stream
      · rw [if_pos (by simp [hrs])]
  · intro cfg st k s d now sid stream cid hcr hk hrs hrole
    simp only [step]
    rw [if_neg (by simp [hcr])]
    simp only [hk, hrs, ne_eq, not_true_eq_false, if_false, ite_false, hrole]
    cases herr : handleSignalingMessage st k sid stream cid d now with
    | ok r =>
      have hcrr := crashed_handleSignaling_ok st k sid stream cid d now r herr
      rw [hcr] at hcrr
      simp only [hcrr, Bool.false_eq_true, false_iff]
      intro hbad
      rcases (handleSignaling_error_iff st k sid stream cid d now s hk hrs).mpr hbad with ⟨e, he⟩
      rw [herr] at he
      cases he
    | error e =>
      simp only [true_iff]
      exact (handleSignaling_error_iff st k sid stream cid d now s hk hrs).mp ⟨e, herr⟩

/-- C3 witness: the iff applied at the concrete open-signaling state —
delivering `{msg_type: 2, status_code: 0}` with no media endpoint sets the
crash flag. -/
theorem claim3_fault_propagation_witness :
    (step cfgW (run cfgW init [.webhookRtmsStarted "s" "t" (some "ws://sig"), .sockOpen 0]).1
      (.sockMessage 0 (.json msgHandshakeNoUrl) 5)).1.crashed = true :=
  (claim3_fault_propagation.2 cfgW
    (run cfgW init [.webhookRtmsStarted "s" "t" (some "ws://sig"), .sockOpen 0]).1 0
    ⟨"ws://sig", .OPEN, .signaling "s" "t" 0, false⟩ (.json msgHandshakeNoUrl) 5 "s" "t" 0
    (by decide) (by decide) (by decide) (by decide)).mpr
    ⟨msgHandshakeNoUrl, rfl, rfl, rfl, by decide⟩

/-- C3 counterexample: before the handshake response the process is alive;
after handling the single well-formed-JSON handshake response whose payload
lacks the media-endpoint fields, the process has crashed — the exception
escaped the message handler. -/
theorem claim3_counterexample :
    (run cfgW init [.webhookRtmsStarted "s" "t" (some "ws://sig"), .sockOpen 0]).1.crashed = false
      ∧ (run cfgW init [.webhookRtmsStarted "s" "t" (some "ws://sig"), .sockOpen 0,
          .sockMessage 0 (.json msgHandshakeNoUrl) 5]).1.crashed = true :=
  ⟨by decide, by decide⟩

/-! ## Claim C7: invariant preservation through each handler -/
theorem timers_wsClose (st : State) (k : Nat) : (wsClose st k).timers = st.timers := by
  unfold wsClose
  split
  · rfl
  · split <;> rfl

theorem timers_cleanupSub (st : State) (o : Option Nat) :
    (cleanupSub st o).timers = st.timers := by
  unfold cleanupSub
  split
  · rfl
  · split
    · rfl
    · split
      · rfl
      · exact timers_wsClose st _

theorem sockOkL_setA {l : List (Nat × Socket)} {rtr : List Action} {k : Nat} {v : Socket}
    (h : SockOkL l rtr)
    (hv : ∀ u sid stream ks cid, v.role = .media u sid stream ks cid →
      Action.sigHandshakeOk sid (some u) ∈ rtr) :
    SockOkL (setA l k v) rtr := by
  intro p hp u sid stream ks cid hrole
  rcases mem_setA hp with hp' | hp'
  · exact h p hp' u sid stream ks cid hrole
  · subst hp'
    exact hv u sid stream ks cid hrole

theorem timerOkL_setA {l : List (Nat × Timer)} {rtr : List Action} {k : Nat} {v : Timer}
    (h : TimerOkL l rtr)
    (hv : ∀ u sid stream cid, v.job = .mediaReconnect u sid stream cid →
      Action.sigHandshakeOk sid (some u) ∈ rtr) :
    TimerOkL (setA l k v) rtr := by
  intro p hp u sid stream cid hjob
  rcases mem_setA hp with hp' | hp'
  · exact h p hp' u sid stream cid hjob
  · subst hp'
    exact hv u sid stream cid hjob

theorem timerOkL_eraseA {l : List (Nat × Timer)} {rtr : List Action} {k : Nat}
    (h : TimerOkL l rtr) : TimerOkL (eraseA l k) rtr :=
  fun p hp u sid stream cid hjob => h p (mem_eraseA hp) u sid stream cid hjob

theorem sockOkL_wsClose {st : State} {rtr : List Action} (k : Nat)
    (h : SockOkL st.sockets rtr) : SockOkL (wsClose st k).sockets rtr := by
  cases hk : lookupA st.sockets k with
  | none => simpa [wsClose, hk] using h
  | some s =>
    cases hs : s.readyState <;> simp only [wsClose, hk, hs] <;>
      first
      | exact h
      | exact sockOkL_setA h
          (fun u sid stream ks cid hrole => h (k, s) (lookupA_mem hk) u sid stream ks cid hrole)

theorem sockOkL_cleanupSub {st : State} {rtr : List Action} (o : Option Nat)
    (h : SockOkL st.sockets rtr) : SockOkL (cleanupSub st o).sockets rtr := by
  cases o with
  | none => exact h
  | some k =>
    cases hk : lookupA st.sockets k with
    | none => simpa [cleanupSub, hk] using h
    | some s =>
      by_cases hs : s.readyState = .CONNECTING
      · simp only [cleanupSub, hk, hs, if_true]
        exact sockOkL_setA h
          (fun u sid stream ks cid hrole => h (k, s) (lookupA_mem hk) u sid stream ks cid hrole)
      · simp only [cleanupSub, hk, if_neg hs]
        exact sockOkL_wsClose k h

theorem inv_updateConn {st : State} {cid : Nat} {f : Conn → Conn} {rtr : List Action}
    (h : Inv st rtr) : Inv (updateConn st cid f) rtr :=
  inv_of_eq h (sockets_updateConn st cid f) (timers_updateConn st cid f)

theorem inv_wsClose {st : State} {k : Nat} {rtr : List Action}
    (h : Inv st rtr) : Inv (wsClose st k) rtr :=
  ⟨sockOkL_wsClose k h.1, by rw [timers_wsClose]; exact h.2.1, h.2.2⟩

theorem inv_cleanupSub {st : State} {o : Option Nat} {rtr : List Action}
    (h : Inv st rtr) : Inv (cleanupSub st o) rtr :=
  ⟨sockOkL_cleanupSub o h.1, by rw [timers_cleanupSub]; exact h.2.1, h.2.2⟩

theorem wsSend_no_creates {st : State} {k : Nat} {m : OutMsg} {a : List Action}
    (h : wsSend st k m = .ok a) : ∀ x ∈ a, mediaCreates x = none := by
  intro x hx
  unfold wsSend at h
  split at h
  · split at h <;> cases h <;> (rcases List.mem_singleton.mp hx with rfl; rfl)
  · cases h
    cases hx

theorem inv_connectToMedia {mu : Option String} {sid stream : String} {ks : Option Nat}
    {cid : Nat} {st : State} {p : State × List Action} {rtr : List Action}
    (h : connectToMediaWebSocket mu sid stream ks cid st = .ok p)
    (hInv : Inv st rtr)
    (hmu : ∀ u', mu = some u' → Action.sigHandshakeOk sid (some u') ∈ rtr) :
    Inv p.1 (p.2.reverse ++ rtr) := by
  cases mu with
  | none => cases h
  | some u =>
    by_cases hu : wsUrlOk u = true
    · simp only [connectToMediaWebSocket, hu, if_true, ite_true] at h
      cases h
      refine ⟨?_, ?_, ?_⟩
      · rw [sockets_updateConn]
        apply sockOkL_setA (sockOkL_mono hInv.1 (mem_append_rtr _ _))
        intro u' sid' stream' ks' cid' hrole
        cases hrole
        exact List.mem_append_right _ (hmu u rfl)
      · rw [timers_updateConn]
        exact timerOkL_mono hInv.2.1 (mem_append_rtr _ _)
      · apply revOk_append hInv.2.2
        refine ⟨fun sid' u' hx => Option.noConfusion hx, fun sid' u' hx => ?_, trivial⟩
        have hx' : (some (sid, u) : Option (String × String)) = some (sid', u') := hx
        cases hx'
        exact List.mem_cons_of_mem _ (hmu u rfl)
    · rw [Bool.not_eq_true] at hu
      simp only [connectToMediaWebSocket, hu, Bool.false_eq_true, if_false, ite_false] at h
      cases h

theorem inv_connectToSignaling {sid stream : String} {urls : Option String} {ex : Option Nat}
    {st : State} {p : State × List Action} {rtr : List Action}
    (h : connectToSignalingWebSocket sid stream urls ex st = .ok p)
    (hInv : Inv st rtr) : Inv p.1 (p.2.reverse ++ rtr) := by
  cases urls with
  | none =>
    simp only [connectToSignalingWebSocket] at h
    cases h
    exact inv_extend_no_creates hInv
      (fun x hx => by rcases List.mem_singleton.mp hx with rfl; rfl)
  | some u =>
    by_cases hws : strStartsWith u "ws" = true
    · by_cases hok : wsUrlOk u = true
      · cases ex with
        | none =>
          simp only [connectToSignalingWebSocket, hws, hok, not_true_eq_false, if_false,
            if_true, ite_true, ite_false, Bool.true_eq_false, not_false_eq_true] at h
          cases h
          refine ⟨?_, ?_, ?_⟩
          · apply sockOkL_setA (sockOkL_mono hInv.1 (mem_append_rtr _ _))
            intro u' sid' stream' ks' cid' hrole
            cases hrole
          · exact timerOkL_mono hInv.2.1 (mem_append_rtr _ _)
          · apply revOk_append hInv.2.2
            exact ⟨fun sid' u' hx => Option.noConfusion hx,
              fun sid' u' hx => Option.noConfusion hx, trivial⟩
        | some cid =>
          simp only [connectToSignalingWebSocket, hws, hok, not_true_eq_false, if_false,
            if_true, ite_true, ite_false, Bool.true_eq_false, not_false_eq_true] at h
          cases h
          refine ⟨?_, ?_, ?_⟩
          · rw [sockets_updateConn]
            apply sockOkL_setA (sockOkL_mono hInv.1 (mem_append_rtr _ _))
            intro u' sid' stream' ks' cid' hrole
            cases hrole
          · rw [timers_updateConn]
            exact timerOkL_mono hInv.2.1 (mem_append_rtr _ _)
          · apply revOk_append hInv.2.2
            exact ⟨fun sid' u' hx => Option.noConfusion hx,
              fun sid' u' hx => Option.noConfusion hx, trivial⟩
      · rw [Bool.not_eq_true] at hok
        simp only [connectToSignalingWebSocket, hws, hok, not_true_eq_false, if_false,
          Bool.false_eq_true, not_false_eq_true, if_true, ite_true, ite_false] at h
        cases h
    · rw [Bool.not_eq_true] at hws
      simp only [connectToSignalingWebSocket, hws, Bool.false_eq_true, not_false_eq_true,
        if_true, ite_true] at h
      cases h
      exact inv_extend_no_creates hInv
        (fun x hx => by rcases List.mem_singleton.mp hx with rfl; rfl)

theorem inv_cleanup {sid : String} {st : State} {rtr : List Action} (hInv : Inv st rtr) :
    Inv (cleanupConnection sid st).1 ((cleanupConnection sid st).2.reverse ++ rtr) := by
  cases hreg : lookupA st.registry sid with
  | none => simpa [cleanupConnection, hreg] using hInv
  | some cid =>
    cases hc : getConn st cid with
    | none =>
      simp only [cleanupConnection, hreg, hc]
      exact inv_extend_no_creates hInv
        (fun x hx => by rcases List.mem_singleton.mp hx with rfl; rfl)
    | some c =>
      have hlogs : ∀ x ∈ [Action.log "[Cleanup]"], mediaCreates x = none :=
        fun x hx => by rcases List.mem_singleton.mp hx with rfl; rfl
      by_cases h1 : c.signaling.socket.isSome <;> by_cases h2 : c.media.socket.isSome
      · simp only [cleanupConnection, hreg, hc, h1, h2, if_true]
        exact inv_extend_no_creates (inv_cleanupSub (inv_updateConn (inv_cleanupSub
          (inv_updateConn (inv_updateConn hInv))))) hlogs
      · simp only [cleanupConnection, hreg, hc, h1, h2, if_true, if_false,
          Bool.false_eq_true]
        exact inv_extend_no_creates
          (inv_cleanupSub (inv_updateConn (inv_updateConn hInv))) hlogs
      · simp only [cleanupConnection, hreg, hc, h1, h2, if_true, if_false,
          Bool.false_eq_true]
        exact inv_extend_no_creates
          (inv_cleanupSub (inv_updateConn (inv_updateConn hInv))) hlogs
      · simp only [cleanupConnection, hreg, hc, h1, h2, if_false, Bool.false_eq_true]
        exact inv_extend_no_creates (inv_updateConn hInv) hlogs

theorem inv_handleMedia {st : State} {d : WireData} {cid k : Nat} {ks : Option Nat}
    {stream : String} {rtr : List Action} (hInv : Inv st rtr) :
    Inv (handleMediaMessage st d cid k ks stream).1
      ((handleMediaMessage st d cid k ks stream).2.reverse ++ rtr) := by
  cases d with
  | malformed =>
    exact inv_extend_no_creates hInv
      (fun x hx => by rcases List.mem_singleton.mp hx with rfl; rfl)
  | json m =>
    simp only [handleMediaMessage]
    split
    · split
      · split
        · exact inv_extend_no_creates hInv
            (fun x hx => by
              rcases List.mem_cons.mp hx with rfl | hx'
              · rfl
              · rcases List.mem_singleton.mp hx' with rfl; rfl)
        · split
          · exact inv_extend_no_creates hInv
              (fun x hx => by
                rcases List.mem_cons.mp hx with rfl | hx'
                · rfl
                · rcases List.mem_singleton.mp hx' with rfl; rfl)
          · rename_i acts hws
            refine inv_extend_no_creates (inv_updateConn hInv) ?_
            intro x hx
            rcases List.mem_cons.mp hx with rfl | hx'
            · rfl
            · exact wsSend_no_creates hws x hx'
      · exact inv_extend_no_creates hInv
          (fun x hx => by rcases List.mem_singleton.mp hx with rfl; rfl)
    · split
      · exact inv_extend_no_creates hInv
          (fun x hx => by rcases List.mem_singleton.mp hx with rfl; rfl)
      · rename_i acts hws
        exact inv_extend_no_creates hInv (wsSend_no_creates hws)
    all_goals
      try (split <;>
        first
        | exact inv_extend_no_creates hInv
            (fun x hx => by rcases List.mem_singleton.mp hx with rfl; rfl)
        | simpa using hInv)
    all_goals simpa using hInv

theorem inv_onSockOpen {cfg : Config} {st : State} {k : Nat} {p : State × List Action}
    {rtr : List Action} (h : onSockOpen cfg st k = .ok p) (hInv : Inv st rtr) :
    Inv p.1 (p.2.reverse ++ rtr) := by
  cases hk : lookupA st.sockets k with
  | none =>
    simp only [onSockOpen, hk] at h
    cases h
    simpa using hInv
  | some s =>
    by_cases hrs : s.readyState = .CONNECTING
    · simp only [onSockOpen, hk, hrs, ne_eq, not_true_eq_false, if_false, ite_false] at h
      have hInv₀ : Inv { st with
          sockets := setA st.sockets k { s with readyState := .OPEN } } rtr := by
        refine ⟨?_, hInv.2.1, hInv.2.2⟩
        exact sockOkL_setA hInv.1
          (fun u sid stream ks cid hrole => hInv.1 (k, s) (lookupA_mem hk) u sid stream ks
            cid hrole)
      split at h
      · cases h
      · rename_i st₁ a₁ hr₁
        repeat' split at hr₁
        all_goals cases hr₁
        all_goals split at h
        all_goals cases h
        all_goals
          first
          | simpa using hInv₀
          | simpa using inv_wsClose hInv₀
          | simpa using inv_wsClose (inv_wsClose hInv₀)
          | (rename_i acts hws hco
             (first
              | simpa using inv_extend_no_creates (inv_updateConn hInv₀) (wsSend_no_creates hws)
              | simpa using inv_extend_no_creates (inv_wsClose (inv_updateConn hInv₀))
                  (wsSend_no_creates hws)))
    · simp only [onSockOpen, hk, hrs, ne_eq, not_false_eq_true, if_true, ite_true] at h
      cases h
      simpa using hInv

theorem inv_onSockError {st : State} {k : Nat} {rtr : List Action} (hInv : Inv st rtr) :
    Inv (onSockError st k).1 ((onSockError st k).2.reverse ++ rtr) := by
  cases hk : lookupA st.sockets k with
  | none => simpa [onSockError, hk] using hInv
  | some s =>
    cases hrole : s.role <;>
      simp only [onSockError, hk, hrole] <;>
      exact inv_extend_no_creates (inv_updateConn hInv)
        (fun x hx => by rcases List.mem_singleton.mp hx with rfl; rfl)

theorem inv_handleSignaling {st : State} {k : Nat} {sid stream : String} {cid : Nat}
    {d : WireData} {now : Nat} {p : State × List Action} {rtr : List Action}
    (h : handleSignalingMessage st k sid stream cid d now = .ok p)
    (hInv : Inv st rtr) : Inv p.1 (p.2.reverse ++ rtr) := by
  cases d with
  | malformed =>
    cases h
    exact inv_extend_no_creates hInv
      (fun x hx => by rcases List.mem_singleton.mp hx with rfl; rfl)
  | json m =>
    simp only [handleSignalingMessage] at h
    split at h
    · -- msg_type 2
      split at h
      · -- status 0
        split at h
        · cases h
        · rename_i st₂ a₂ heq
          split at h
          · cases h
          · rename_i a₃ hws
            cases h
            have hInv₁ : Inv (updateConn st cid fun c =>
                { c with signaling := { c.signaling with state := .ready } })
                ([Action.sigHandshakeOk sid m.mediaUrl].reverse ++ rtr) :=
              inv_extend_no_creates (inv_updateConn hInv)
                (fun x hx => by rcases List.mem_singleton.mp hx with rfl; rfl)
            have hmu : ∀ u', m.mediaUrl = some u' →
                Action.sigHandshakeOk sid (some u') ∈
                  ([Action.sigHandshakeOk sid m.mediaUrl].reverse ++ rtr) := by
              intro u' hu'
              rw [hu']
              exact List.mem_append_left _ (List.mem_singleton.mpr rfl)
            have hInv₂ := inv_connectToMedia heq hInv₁ hmu
            have hInv₃ := inv_extend_no_creates hInv₂ (wsSend_no_creates hws)
            simpa [List.reverse_append, List.append_assoc] using hInv₃
      · cases h
        exact inv_extend_no_creates hInv
          (fun x hx => by rcases List.mem_singleton.mp hx with rfl; rfl)
    · -- msg_type 6
      split at h
      · cases h
        simpa using hInv
      · split at h <;>
          (cases h;
           exact inv_extend_no_creates hInv
             (fun x hx => by rcases List.mem_singleton.mp hx with rfl; rfl))
    · -- msg_type 8
      split at h
      · rcases hcl : cleanupConnection sid st with ⟨st', a'⟩
        rw [hcl] at h
        cases h
        have hInv₀ : Inv st ([Action.log "[Signaling] Stream state changed"].reverse ++ rtr) :=
          inv_extend_no_creates hInv
            (fun x hx => by rcases List.mem_singleton.mp hx with rfl; rfl)
        have := @inv_cleanup sid st
          ([Action.log "[Signaling] Stream state changed"].reverse ++ rtr) hInv₀
        rw [hcl] at this
        simpa [List.reverse_append, List.append_assoc] using this
      · cases h
        exact inv_extend_no_creates hInv
          (fun x hx => by rcases List.mem_singleton.mp hx with rfl; rfl)
    · cases h
      exact inv_extend_no_creates hInv
        (fun x hx => by rcases List.mem_singleton.mp hx with rfl; rfl)
    · -- msg_type 12
      split at h
      · cases h
      · rename_i acts hws
        cases h
        exact inv_extend_no_creates (inv_updateConn hInv) (wsSend_no_creates hws)
    · cases h
      exact inv_extend_no_creates hInv
        (fun x hx => by rcases List.mem_singleton.mp hx with rfl; rfl)

theorem inv_onSockClose {st : State} {k : Nat} {p : State × List Action} {rtr : List Action}
    (h : onSockClose st k = .ok p) (hInv : Inv st rtr) : Inv p.1 (p.2.reverse ++ rtr) := by
  cases hk : lookupA st.sockets k with
  | none =>
    simp only [onSockClose, hk] at h
    cases h
    simpa using hInv
  | some s =>
    by_cases hcs : s.readyState = .CLOSED
    · simp only [onSockClose, hk, hcs, if_true] at h
      cases h
      simpa using hInv
    · simp only [onSockClose, hk, if_neg hcs] at h
      have hInv₀ : Inv { st with
          sockets := setA st.sockets k { s with readyState := .CLOSED } } rtr := by
        refine ⟨?_, hInv.2.1, hInv.2.2⟩
        exact sockOkL_setA hInv.1
          (fun u sid stream ks cid hrole => hInv.1 (k, s) (lookupA_mem hk) u sid stream ks
            cid hrole)
      split at h
      · -- signaling role
        split at h
        · cases h
          simpa using inv_updateConn hInv₀
        · split at h
          · cases h
            rename_i c hgc hsr
            refine inv_extend_no_creates ⟨?_, ?_, hInv₀.2.2⟩
              (fun x hx => by rcases List.mem_singleton.mp hx with rfl; rfl)
            · exact (inv_updateConn hInv₀).1
            · apply timerOkL_setA (inv_updateConn hInv₀).2.1
              intro u' sid' stream' cid' hjob
              cases hjob
          · cases h
            simpa using inv_updateConn hInv₀
      · -- media role
        rename_i u sid stream oks cid hrole
        split at h
        · cases h
          simpa using inv_updateConn hInv₀
        · split at h
          · cases h
            simpa using inv_updateConn hInv₀
          · split at h
            · cases h
              refine inv_extend_no_creates ⟨?_, ?_, hInv₀.2.2⟩
                (fun x hx => by rcases List.mem_singleton.mp hx with rfl; rfl)
              · exact (inv_updateConn hInv₀).1
              · apply timerOkL_setA (inv_updateConn hInv₀).2.1
                intro u' sid' stream' cid' hjob
                cases hjob
                exact hInv.1 (k, s) (lookupA_mem hk) u sid stream oks cid hrole
            · split at h
              · cases h
              · rename_i p₂ heq
                cases h
                have hInv₁ : Inv (updateConn { st with
                    sockets := setA st.sockets k { s with readyState := .CLOSED } } cid
                    fun c => { c with media := { c.media with state := .closed } })
                    ([Action.log "[Media] Signaling not ready"].reverse ++ rtr) :=
                  inv_extend_no_creates (inv_updateConn hInv₀)
                    (fun x hx => by rcases List.mem_singleton.mp hx with rfl; rfl)
                have := inv_connectToSignaling heq hInv₁
                simpa [List.reverse_append, List.append_assoc] using this

theorem inv_onTimerFire {st : State} {tid : Nat} {p : State × List Action} {rtr : List Action}
    (h : onTimerFire st tid = .ok p) (hInv : Inv st rtr) : Inv p.1 (p.2.reverse ++ rtr) := by
  cases ht : lookupA st.timers tid with
  | none =>
    simp only [onTimerFire, ht] at h
    cases h
    simpa using hInv
  | some t =>
    have hInv₀ : Inv { st with timers := eraseA st.timers tid } rtr :=
      ⟨hInv.1, timerOkL_eraseA hInv.2.1, hInv.2.2⟩
    simp only [onTimerFire, ht] at h
    split at h
    · -- signaling reconnect
      split at h
      · cases h
        simpa using hInv₀
      · split at h
        · exact inv_connectToSignaling h hInv₀
        · cases h
          simpa using hInv₀
    · -- media reconnect
      rename_i u sid stream cid hjob
      split at h
      · cases h
        simpa using hInv₀
      · refine inv_connectToMedia h hInv₀ ?_
        intro u' hu'
        cases hu'
        exact hInv.2.1 (tid, t) (lookupA_mem ht) u sid stream cid hjob

/-- C10 witness: on the fixture `stB` the captured signaling socket 0 is
open, so the media handshake success on media socket 1 sends `msg_type` 7
on socket 0 and marks the media sub-state streaming. -/
theorem claim10_stream_start_witness :
    step cfgW stB (.sockMessage 1 (.json msgMediaHsOk) 11) =
        (updateConn stB 0 fun c => { c with media := { c.media with state := .streaming } },
         [.log "[Media] Handshake successful", .sent 0 (.streamStartReq "t")]) :=
  ((claim10_stream_start cfgW stB 1
      ⟨"ws://media", .OPEN, .media "ws://media" "s" "t" (some 0) 0, false⟩
      ⟨"ws://sig", .OPEN, .signaling "s" "t" 0, false⟩ msgMediaHsOk 11
      "ws://media" "s" "t" 0 0
      (by decide) (by decide) (by decide) (by decide) (by decide) (by decide)
      (by decide)).1 (by decide) (by decide)).1

/-- C10 counterexample: in the reconnect-race state `stX` the media
socket 3 is open and its captured signaling handle 2 is a socket still
`CONNECTING`; the status-0 media handshake response then sends *nothing*
(the `send` throws into the `catch`) and the media sub-state never
reaches `streaming` — refuting the claim's unconditional send and
transition. -/
theorem claim10_counterexample :
    (lookupA stX.sockets 3).map Socket.readyState = some .OPEN
    ∧ (lookupA stX.sockets 3).map Socket.role =
        some (.media "ws://media" "s" "t" (some 2) 0)
    ∧ (lookupA stX.sockets 2).map Socket.readyState = some .CONNECTING
    ∧ stX.crashed = false
    ∧ step cfgW stX (.sockMessage 3 (.json msgMediaHsOk) 11) =
        (stX, [.log "[Media] Handshake successful",
               .log "[Media] Failed to parse message"])
    ∧ (getConn (step cfgW stX (.sockMessage 3 (.json msgMediaHsOk) 11)).1 0).map
        (fun c => c.media.state) = some .authenticated := by
  refine ⟨by decide, by decide, by decide, by decide, by decide, by decide⟩

/-- The initial state satisfies the invariant: both heaps are empty and
the trace is empty. -/
theorem inv_init : Inv init [] := by
  refine ⟨?_, ?_, RevOk.nil⟩
  · intro p hp
    simp [init] at hp
  · intro p hp
    simp [init] at hp

/-- Setting the crash flag keeps both heaps, hence the invariant. -/
theorem inv_crash {st : State} {rtr : List Action} (hInv : Inv st rtr) :
    Inv { st with crashed := true } rtr :=
  ⟨hInv.1, hInv.2.1, hInv.2.2⟩

/-- Prepending a plain log line to the reversed trace keeps it good. -/
theorem inv_log {st : State} {rtr : List Action} (tag : String) (hInv : Inv st rtr) :
    Inv st (Action.log tag :: rtr) :=
  @inv_extend_no_creates st rtr [Action.log tag] hInv
    (fun x hx => by rcases List.mem_singleton.mp hx with rfl; rfl)

/-- One step of the machine preserves the run invariant. -/
theorem step_pres {cfg : Config} {st : State} {e : Event} {rtr : List Action}
    (hInv : Inv st rtr) :
    Inv (step cfg st e).1 ((step cfg st e).2.reverse ++ rtr) := by
  cases hcr : st.crashed with
  | true => simpa [step, hcr] using hInv
  | false =>
    cases e with
    | webhookRtmsStarted sid stream urls =>
      cases hc : connectToSignalingWebSocket sid stream urls none st with
      | ok p =>
        obtain ⟨st₁, a₁⟩ := p
        have h1 : Inv st (Action.log "[Webhook] RTMS started" :: rtr) := inv_log _ hInv
        have h2 := inv_connectToSignaling hc h1
        simp only [step, hcr, Bool.false_eq_true, if_false, hc]
        simpa [List.append_assoc] using h2
      | error u =>
        simp only [step, hcr, Bool.false_eq_true, if_false, hc]
        simpa using inv_log "[Webhook] RTMS started" hInv
    | webhookRtmsStopped sid =>
      have h1 : Inv st (Action.log "[Webhook] RTMS stopped" :: rtr) := inv_log _ hInv
      have h2 := @inv_cleanup sid st (Action.log "[Webhook] RTMS stopped" :: rtr) h1
      rcases hc : cleanupConnection sid st with ⟨st₁, a₁⟩
      rw [hc] at h2
      simp only [step, hcr, Bool.false_eq_true, if_false, hc]
      simpa [List.append_assoc] using h2
    | sockOpen k =>
      simp only [step, hcr, Bool.false_eq_true, if_false]
      cases hh : onSockOpen cfg st k with
      | ok r => exact inv_onSockOpen hh hInv
      | error u => simpa using inv_crash hInv
    | sockMessage k d now =>
      simp only [step, hcr, Bool.false_eq_true, if_false]
      cases hk : lookupA st.sockets k with
      | none => simpa using hInv
      | some s =>
        by_cases hrs : s.readyState = .OPEN
        · simp only [hk, hrs, ne_eq, not_true_eq_false, if_false, ite_false]
          cases hrole : s.role with
          | media u sid stream ks cid => exact inv_handleMedia hInv
          | signaling sid stream cid =>
            cases hh : handleSignalingMessage st k sid stream cid d now with
            | ok r =>
              have h := inv_handleSignaling hh hInv
              simpa [hh] using h
            | error u =>
              simpa [hh] using inv_crash hInv
        · simp only [hk, ne_eq, hrs, not_false_eq_true, if_true]
          simpa using hInv
    | sockClose k =>
      simp only [step, hcr, Bool.false_eq_true, if_false]
      cases hh : onSockClose st k with
      | ok r => exact inv_onSockClose hh hInv
      | error u => simpa using inv_crash hInv
    | sockError k =>
      simp only [step, hcr, Bool.false_eq_true, if_false]
      exact inv_onSockError hInv
    | timerFire tid =>
      simp only [step, hcr, Bool.false_eq_true, if_false]
      cases hh : onTimerFire st tid with
      | ok r => exact inv_onTimerFire hh hInv
      | error u => simpa using inv_crash hInv

/-- A whole run preserves the run invariant. -/
theorem run_pres {cfg : Config} {st : State} {evs : List Event} {rtr : List Action}
    (hInv : Inv st rtr) :
    Inv (run cfg st evs).1 ((run cfg st evs).2.reverse ++ rtr) := by
  induction evs generalizing st rtr with
  | nil => simpa [run] using hInv
  | cons e rest ih =>
    rcases hs : step cfg st e with ⟨st₁, a₁⟩
    have h1 : Inv st₁ (a₁.reverse ++ rtr) := by
      have h := @step_pres cfg st e rtr hInv
      rwa [hs] at h
    rcases hr : run cfg st₁ rest with ⟨st₂, a₂⟩
    have h2 : Inv st₂ (a₂.reverse ++ (a₁.reverse ++ rtr)) := by
      have h := ih h1
      rwa [hr] at h
    simp only [run, hs, hr]
    simpa [List.reverse_append, List.append_assoc] using h2

/-- C7 (confirmed). In every run of the system from the initial state,
any trace action that creates a media socket for session `sid` pointing
at endpoint `u` is strictly preceded in the trace by the status-0
signaling handshake acknowledgement for that same session carrying
exactly that endpoint: a media connection attempt never occurs before
the session's handshake success, and it uses exactly the media endpoint
delivered by that response. -/
theorem claim7_handshake_before_media (cfg : Config) (evs : List Event)
    (l1 l2 : List Action) (x : Action) (sid u : String)
    (htr : (run cfg init evs).2 = l1 ++ x :: l2)
    (hm : mediaCreates x = some (sid, u)) :
    Action.sigHandshakeOk sid (some u) ∈ l1 := by
  have hInv : Inv (run cfg init evs).1 ((run cfg init evs).2.reverse ++ []) :=
    run_pres inv_init
  have hRev : RevOk (l2.reverse ++ x :: l1.reverse) := by
    have h := hInv.2.2
    rw [htr] at h
    simpa [List.reverse_append, List.append_assoc] using h
  have h := revOk_mid hRev hm
  simpa using h

/-- C7 witness: in the concrete three-event run (session started, the
signaling socket opens, the status-0 handshake response arrives) the
seventh trace action creates the media socket for session `s` at
`ws://media`, and the handshake acknowledgement for `s` with exactly
that endpoint occurs among the first six actions. -/
theorem claim7_handshake_before_media_witness :
    mediaCreates ((run cfgW init evsW).2.get ⟨6, by decide⟩) =
      some ("s", "ws://media") ∧
    Action.sigHandshakeOk "s" (some "ws://media") ∈ (run cfgW init evsW).2.take 6 :=
  ⟨by decide,
   claim7_handshake_before_media cfgW evsW ((run cfgW init evsW).2.take 6)
     ((run cfgW init evsW).2.drop 7) ((run cfgW init evsW).2.get ⟨6, by decide⟩)
     "s" "ws://media"
     (by
       conv_lhs => rw [← List.take_append_drop 6 (run cfgW init evsW).2]
       rw [List.drop_eq_getElem_cons (by decide)]
       rfl)
     (by decide)⟩

end Rtms

